import Mathlib

/-!
Verification development for the `android_api` Odoo module: a shallow
embedding of the REST sync controllers (`auth.py`, `visit_controller.py`,
`customer_controller.py`, `sales_controller.py`, `payment_controller.py`)
and the webhook model (`webhook.py`), together with theorems settling the
frozen claims about the module.

Modelling conventions:
* Python's dynamically typed JSON payload values are embedded as `PyVal`
  (`None`, strings, integers, booleans); a JSON object is an association
  list `Rec`.  Python truthiness and `str()` are `pyTruthy` and `pyStr`.
* Timestamps handled by the rate limiter (`time.time()`) are embedded as
  rationals; the stored API entities carry parsed datetimes as `DT`.
* The database cursor (Odoo wraps psycopg2/PostgreSQL) is embedded as
  `Cr`: a snapshot (`base`), the transaction-local view (`rows`), rows
  committed concurrently by other transactions which are invisible to
  reads but conflict with inserts (`ext`), a savepoint stack (`saves`)
  and an `aborted` flag.  The semantics follow PostgreSQL: a full
  `rollback` starts a fresh snapshot and destroys all savepoints;
  releasing or rolling back to a savepoint that no longer exists raises
  an error and leaves the transaction in the failed state; committing a
  failed transaction persists nothing.  Odoo's HTTP layer commits the
  cursor whenever the controller returns a response (of any status).
* `write_date` (system timestamp maintained by the ORM) is not modelled:
  no claim depends on it.  Authentication and webhook HTTP delivery are
  external collaborators per the spec; the decision logic around them is
  modelled, the transport is not.
-/

namespace AndroidApi

/-- Embedded Python/JSON scalar values as they occur in request payloads. -/
inductive PyVal : Type
  | none : PyVal
  | str : String → PyVal
  | int : Int → PyVal
  | bool : Bool → PyVal
  deriving DecidableEq

/-- Python truthiness of an embedded value. -/
def pyTruthy : PyVal → Bool
  | PyVal.none => false
  | PyVal.str s => s ≠ ""
  | PyVal.int n => n ≠ 0
  | PyVal.bool b => b

/-- Python `str()` of an embedded value. -/
def pyStr : PyVal → String
  | PyVal.none => "None"
  | PyVal.str s => s
  | PyVal.int n => toString n
  | PyVal.bool b => if b then "True" else "False"

/-- A JSON object (Python dict) from a request body: an association list. -/
abbrev Rec : Type := List (String × PyVal)

/-- Python `dict.get(k)`: the value when the key is present, `None` otherwise. -/
def Rec.get (d : Rec) (k : String) : PyVal :=
  match d.find? (fun p => p.1 = k) with
  | Option.none => PyVal.none
  | Option.some p => p.2

/-- Python `dict.get(k, default)`: the stored value (even `None`) when the key
is present, the default otherwise. -/
def Rec.getD (d : Rec) (k : String) (dflt : PyVal) : PyVal :=
  match d.find? (fun p => p.1 = k) with
  | Option.none => dflt
  | Option.some p => p.2

/-- Membership of a key in a dict (Python `k in d`). -/
def Rec.hasKey (d : Rec) (k : String) : Bool :=
  (d.find? (fun p => p.1 = k)).isSome

/-! ## Datetimes

`parse_datetime` in `auth.py` tries `datetime.strptime` with the formats
`%Y-%m-%dT%H:%M:%S`, `%Y-%m-%dT%H:%M:%SZ`, `%Y-%m-%d %H:%M:%S`, `%Y-%m-%d`
in order.  `strptime` is modelled as zero-padded fixed-width parsing with
calendar range checks (month 1–12, day within the month with leap years,
hour 0–23, minute and second 0–59), which is its behaviour on the
zero-padded inputs these formats describe. -/

/-- A parsed datetime (Python `datetime.datetime`). -/
structure DT where
  year : Nat
  month : Nat
  day : Nat
  hour : Nat
  minute : Nat
  second : Nat
  deriving DecidableEq

/-- A parsed date (Python `datetime.date`). -/
structure Date where
  year : Nat
  month : Nat
  day : Nat
  deriving DecidableEq

/-- Numeric value of a decimal digit character, when it is one. -/
def digitVal (c : Char) : Option Nat :=
  if c.isDigit then Option.some (c.toNat - 48) else Option.none

/-- Two-digit zero-padded field. -/
def twoDigits (a b : Char) : Option Nat :=
  match digitVal a, digitVal b with
  | Option.some x, Option.some y => Option.some (10 * x + y)
  | _, _ => Option.none

/-- Four-digit zero-padded field. -/
def fourDigits (a b c d : Char) : Option Nat :=
  match digitVal a, digitVal b, digitVal c, digitVal d with
  | Option.some x, Option.some y, Option.some z, Option.some w =>
      Option.some (1000 * x + 100 * y + 10 * z + w)
  | _, _, _, _ => Option.none

/-- Gregorian leap-year rule (as in Python's `calendar`/`datetime`). -/
def isLeap (y : Nat) : Bool :=
  (y % 4 = 0 && y % 100 ≠ 0) || y % 400 = 0

/-- Number of days in a month. -/
def monthLen (y m : Nat) : Nat :=
  if m = 2 then (if isLeap y then 29 else 28)
  else if m = 4 || m = 6 || m = 9 || m = 11 then 30
  else 31

/-- Range checks performed by `datetime.strptime` on a parsed date. -/
def validYmd (y m d : Nat) : Bool :=
  1 ≤ y && y ≤ 9999 && 1 ≤ m && m ≤ 12 && 1 ≤ d && d ≤ monthLen y m

/-- Range checks performed by `datetime.strptime` on a parsed time. -/
def validHms (h mi s : Nat) : Bool :=
  h ≤ 23 && mi ≤ 59 && s ≤ 59

/-- Parse the 10-character `YYYY-MM-DD` prefix. -/
def parseYmdChars : List Char → Option (Nat × Nat × Nat)
  | [y1, y2, y3, y4, '-', m1, m2, '-', d1, d2] =>
      match fourDigits y1 y2 y3 y4, twoDigits m1 m2, twoDigits d1 d2 with
      | Option.some y, Option.some m, Option.some d =>
          if validYmd y m d then Option.some (y, m, d) else Option.none
      | _, _, _ => Option.none
  | _ => Option.none

/-- Parse the 8-character `HH:MM:SS` part. -/
def parseHmsChars : List Char → Option (Nat × Nat × Nat)
  | [h1, h2, ':', n1, n2, ':', s1, s2] =>
      match twoDigits h1 h2, twoDigits n1 n2, twoDigits s1 s2 with
      | Option.some h, Option.some mi, Option.some s =>
          if validHms h mi s then Option.some (h, mi, s) else Option.none
      | _, _, _ => Option.none
  | _ => Option.none

/-- Parse `YYYY-MM-DD<sep>HH:MM:SS` with the given separator character. -/
def parseDtWithSep (sep : Char) (cs : List Char) : Option DT :=
  if cs.length = 19 && cs.getD 10 ' ' = sep then
    match parseYmdChars (cs.take 10), parseHmsChars (cs.drop 11) with
    | Option.some (y, m, d), Option.some (h, mi, s) =>
        Option.some ⟨y, m, d, h, mi, s⟩
    | _, _ => Option.none
  else Option.none

/-- The four accepted input formats of `parse_datetime`, tried in order:
ISO 8601, ISO 8601 with `Z`, legacy space-separated, and date-only. -/
def strptimeAny (s : String) : Option DT :=
  let cs := s.data
  match parseDtWithSep 'T' cs with
  | Option.some dt => Option.some dt
  | Option.none =>
    match (if cs.length = 20 && cs.getD 19 ' ' = 'Z' then
             parseDtWithSep 'T' (cs.take 19) else Option.none) with
    | Option.some dt => Option.some dt
    | Option.none =>
      match parseDtWithSep ' ' cs with
      | Option.some dt => Option.some dt
      | Option.none =>
        match parseYmdChars cs with
        | Option.some (y, m, d) => Option.some ⟨y, m, d, 0, 0, 0⟩
        | Option.none => Option.none

/-- Outcome of `parse_datetime` applied to a payload value, as observed by
the visit controller: a parsed datetime, a falsy result (empty/invalid
input, reported as a 400), or a raised `TypeError` (non-string truthy
value handed to `strptime`), which escapes to the catch-all handler. -/
inductive DtParse : Type
  | ok : DT → DtParse
  | fail : DtParse
  | raise : DtParse
  deriving DecidableEq

/-- Behaviour of `parse_datetime(value)` on an arbitrary payload value. -/
def parseDatetimePy (v : PyVal) : DtParse :=
  match v with
  | PyVal.str s =>
      if s = "" then DtParse.fail
      else
        match strptimeAny s with
        | Option.some dt => DtParse.ok dt
        | Option.none => DtParse.fail
  | PyVal.none => DtParse.fail
  | PyVal.int n => if n = 0 then DtParse.fail else DtParse.raise
  | PyVal.bool b => if b then DtParse.raise else DtParse.fail

/-- Strict `%Y-%m-%d` parsing used by the customer controller for `date`. -/
def parseDateYmd (s : String) : Option Date :=
  match parseYmdChars s.data with
  | Option.some (y, m, d) => Option.some ⟨y, m, d⟩
  | Option.none => Option.none

/-- Left-pad a numeral with zeros to the given width. -/
def padZeros (width n : Nat) : String :=
  let s := toString n
  if s.length < width then String.mk (List.replicate (width - s.length) '0') ++ s
  else s

/-- Render a datetime as `YYYY-MM-DDTHH:MM:SS` (`format_datetime`). -/
def fmtDT (dt : DT) : String :=
  padZeros 4 dt.year ++ "-" ++ padZeros 2 dt.month ++ "-" ++ padZeros 2 dt.day ++
    "T" ++ padZeros 2 dt.hour ++ ":" ++ padZeros 2 dt.minute ++ ":" ++
    padZeros 2 dt.second

/-- Render a date as `YYYY-MM-DD` (`format_date` / `strftime` in the
customer controller). -/
def fmtDate (d : Date) : String :=
  padZeros 4 d.year ++ "-" ++ padZeros 2 d.month ++ "-" ++ padZeros 2 d.day

/-! ## UUID-v4 lexical check

`visit_controller.py` compiles
`^[0-9a-f]{8}-[0-9a-f]{4}-4[0-9a-f]{3}-[89ab][0-9a-f]{3}-[0-9a-f]{12}$`
with `re.IGNORECASE` and applies it with `re.match`.  Under Python
semantics `$` also matches just before a single trailing newline, so
`UUID_REGEX.match(s)` succeeds on a well-formed UUID followed by one
`'\n'`.  `uuidCore` is the anchored (full-string) pattern itself;
`codeUuidMatch` is the code's Python-semantics check. -/

/-- Hexadecimal digit, case-insensitive (the `[0-9a-f]` class under
`re.IGNORECASE`). -/
def isHexChar (c : Char) : Bool :=
  c.isDigit || ('a' ≤ c && c ≤ 'f') || ('A' ≤ c && c ≤ 'F')

/-- Character class required at position `i` of the 36-character pattern. -/
def uuidPosOk (i : Nat) (c : Char) : Bool :=
  if i = 8 || i = 13 || i = 18 || i = 23 then c = '-'
  else if i = 14 then c = '4'
  else if i = 19 then
    c = '8' || c = '9' || c = 'a' || c = 'b' || c = 'A' || c = 'B'
  else isHexChar c

/-- Full anchored match of the UUID-v4 pattern on a character list. -/
def uuidCore (cs : List Char) : Bool :=
  cs.length = 36 && (List.range 36).all (fun i => uuidPosOk i (cs.getD i ' '))

/-- What the source's UUID-v4 pattern denotes as an anchored (full-string)
regular expression: the spec-side reading of `^...$`, for comparison with
the code's Python `re.match` behaviour. -/
def specUuidV4Match (s : String) : Bool :=
  uuidCore s.data

/-- The check actually performed by `UUID_REGEX.match(str(mobile_uid))`:
Python's `$` also accepts one trailing newline. -/
def codeUuidMatch (s : String) : Bool :=
  uuidCore s.data ||
    (match s.data.getLast? with
     | Option.some c => c = '\n' && uuidCore s.data.dropLast
     | Option.none => false)

/-- Python slicing `s[:n]` on a string: the first `n` characters. -/
def pyTake (s : String) (n : Nat) : String :=
  String.mk (s.data.take n)

/-! ## Stored entities

One structure per synced model, carrying exactly the fields the write
paths touch.  Field values written from payloads are kept as the raw
`PyVal` handed to the ORM (no claim distinguishes the storage layer's
string coercion of non-string values).  `Option.none` is an unset
(NULL) column. -/

/-- A `res.partner` row, restricted to the fields the customer sync
touches (`_dict_to_partner_vals` / `_partner_to_dict`). -/
structure Partner where
  id : Nat
  mobile_uid : Option PyVal
  name : Option PyVal
  city : Option PyVal
  vat : Option PyVal
  email : Option PyVal
  phone : Option PyVal
  website : Option PyVal
  is_company : Option Bool
  customer_rank : Option Int
  mobile_sync_date : Option Date
  deriving DecidableEq

/-- A `res.partner.visit` row (`res_partner_visit.py`); `mobile_uid`
carries a UNIQUE constraint. -/
structure Visit where
  id : Nat
  mobile_uid : Option PyVal
  partner_id : Option PyVal
  visit_datetime : Option DT
  memo : Option String
  deriving DecidableEq

/-- A `sale.order` row restricted to the synced fields (`sale_order.py`
adds the UNIQUE `mobile_uid`). -/
structure SaleOrder where
  id : Nat
  mobile_uid : Option PyVal
  partner_id : Option PyVal
  date_order : Option DT
  deriving DecidableEq

/-- An `account.payment` row restricted to the synced fields
(`account_payment.py` adds the UNIQUE `mobile_uid`). -/
structure Payment where
  id : Nat
  mobile_uid : Option PyVal
  partner_id : Option PyVal
  amount : Option PyVal
  payment_type : Option String
  partner_type : Option String
  journal_id : Option PyVal
  date : Option Date
  ref : Option PyVal
  deriving DecidableEq

/-- An `account.journal` row, for the default-bank-journal lookup in
`__dict_to_payment_vals`. -/
structure Journal where
  id : Nat
  jtype : String
  company_id : Nat
  deriving DecidableEq

/-! ## Value dictionaries

Each controller converts a payload dict to an ORM `vals` dict and drops
`None`-valued keys (`{k: v for k, v in vals.items() if v is not None}`).
A `vals` structure field of `Option.none` models an absent key; the ORM
`write`/`create` only touches the keys present. -/

/-- The `vals` dict built by `VisitController.__dict_to_visit_vals`. -/
structure VisitVals where
  mobile_uid : Option PyVal
  partner_id : Option PyVal
  visit_datetime : Option DT
  memo : Option String
  deriving DecidableEq

/-- `__dict_to_visit_vals(data, parsed_datetime)`: maps payload keys to
field values, truncates the memo to 5000 characters, and drops
`None`-valued keys.  The controller always passes the pre-parsed
datetime; when it is absent the function re-parses `visit_datetime`. -/
def dictToVisitVals (data : Rec) (parsedDt : Option DT) : VisitVals :=
  let mu := data.get "mobile_uid"
  let pid := data.get "partner_id"
  let vdt :=
    match parsedDt with
    | Option.some dt => Option.some dt
    | Option.none =>
        match data.get "visit_datetime" with
        | PyVal.str s =>
            if s ≠ "" then strptimeAny s else Option.none
        | _ => Option.none
  let memoV := data.get "memo"
  { mobile_uid := if mu = PyVal.none then Option.none else Option.some mu
    partner_id := if pid = PyVal.none then Option.none else Option.some pid
    visit_datetime := vdt
    memo := if pyTruthy memoV then Option.some (pyTake (pyStr memoV) 5000)
            else Option.none }

/-- Effect of `record.write(vals)` on a visit row: each key present in
`vals` overwrites that column, absent keys keep their stored value. -/
def applyVisitVals (v : Visit) (w : VisitVals) : Visit :=
  { id := v.id
    mobile_uid := match w.mobile_uid with
                  | Option.some x => Option.some x
                  | Option.none => v.mobile_uid
    partner_id := match w.partner_id with
                  | Option.some x => Option.some x
                  | Option.none => v.partner_id
    visit_datetime := match w.visit_datetime with
                      | Option.some x => Option.some x
                      | Option.none => v.visit_datetime
    memo := match w.memo with
            | Option.some x => Option.some x
            | Option.none => v.memo }

/-- A freshly created visit row (`visits_env.create(visit_vals)`). -/
def newVisit (nid : Nat) (w : VisitVals) : Visit :=
  { id := nid
    mobile_uid := w.mobile_uid
    partner_id := w.partner_id
    visit_datetime := w.visit_datetime
    memo := w.memo }

/-- The `vals` dict built by `CustomerController._dict_to_partner_vals`.
`is_company`/`customer_rank` are constants in the source dict and are
never `None`, so they are always present. -/
structure PartnerVals where
  name : Option PyVal
  mobile_uid : Option PyVal
  city : Option PyVal
  vat : Option PyVal
  email : Option PyVal
  phone : Option PyVal
  website : Option PyVal
  is_company : Option Bool
  customer_rank : Option Int
  mobile_sync_date : Option Date
  deriving DecidableEq

/-- `_dict_to_partner_vals(data)`: maps payload keys (`tax_id` → `vat`) to
field values, parses `date` strictly as `%Y-%m-%d` (a `ValueError` only
logs a warning and drops the field), and drops `None`-valued keys.
`Except.error` models the `TypeError` raised by `strptime` on a truthy
non-string `date`, which escapes to the per-record handler. -/
def dictToPartnerVals (data : Rec) : Except Unit PartnerVals :=
  let base : PartnerVals :=
    { name := if data.get "name" = PyVal.none then Option.none
              else Option.some (data.get "name")
      mobile_uid := if data.get "mobile_uid" = PyVal.none then Option.none
                    else Option.some (data.get "mobile_uid")
      city := if data.get "city" = PyVal.none then Option.none
              else Option.some (data.get "city")
      vat := if data.get "tax_id" = PyVal.none then Option.none
             else Option.some (data.get "tax_id")
      email := if data.get "email" = PyVal.none then Option.none
               else Option.some (data.get "email")
      phone := if data.get "phone" = PyVal.none then Option.none
               else Option.some (data.get "phone")
      website := if data.get "website" = PyVal.none then Option.none
                 else Option.some (data.get "website")
      is_company := Option.some true
      customer_rank := Option.some 1
      mobile_sync_date := Option.none }
  match data.get "date" with
  | PyVal.str s =>
      if s = "" then Except.ok base
      else
        match parseDateYmd s with
        | Option.some d => Except.ok { base with mobile_sync_date := Option.some d }
        | Option.none => Except.ok base
  | PyVal.none => Except.ok base
  | PyVal.int n => if n = 0 then Except.ok base else Except.error ()
  | PyVal.bool b => if b then Except.error () else Except.ok base

/-- Effect of `partner.write(vals)` on a partner row. -/
def applyPartnerVals (p : Partner) (w : PartnerVals) : Partner :=
  { id := p.id
    mobile_uid := match w.mobile_uid with
                  | Option.some x => Option.some x
                  | Option.none => p.mobile_uid
    name := match w.name with
            | Option.some x => Option.some x
            | Option.none => p.name
    city := match w.city with
            | Option.some x => Option.some x
            | Option.none => p.city
    vat := match w.vat with
           | Option.some x => Option.some x
           | Option.none => p.vat
    email := match w.email with
             | Option.some x => Option.some x
             | Option.none => p.email
    phone := match w.phone with
             | Option.some x => Option.some x
             | Option.none => p.phone
    website := match w.website with
               | Option.some x => Option.some x
               | Option.none => p.website
    is_company := match w.is_company with
                  | Option.some x => Option.some x
                  | Option.none => p.is_company
    customer_rank := match w.customer_rank with
                     | Option.some x => Option.some x
                     | Option.none => p.customer_rank
    mobile_sync_date := match w.mobile_sync_date with
                        | Option.some x => Option.some x
                        | Option.none => p.mobile_sync_date }

/-- A freshly created partner row (`Partner.create(vals)`). -/
def newPartner (nid : Nat) (w : PartnerVals) : Partner :=
  { id := nid
    mobile_uid := w.mobile_uid
    name := w.name
    city := w.city
    vat := w.vat
    email := w.email
    phone := w.phone
    website := w.website
    is_company := w.is_company
    customer_rank := w.customer_rank
    mobile_sync_date := w.mobile_sync_date }

/-- The `vals` dict built by `SalesController.__dict_to_sale_order_vals`.
A truthy `date_order` that parses contributes the field; a parse failure
silently drops it (the error component of `parse_datetime` is ignored). -/
structure SaleVals where
  mobile_uid : Option PyVal
  partner_id : Option PyVal
  date_order : Option DT
  deriving DecidableEq

/-- `__dict_to_sale_order_vals(data)` for the no-raise case (string or
falsy `date_order`; a truthy non-string raises and is not reached by any
claim settled here). -/
def dictToSaleVals (data : Rec) : SaleVals :=
  let mu := data.get "mobile_uid"
  let pid := data.get "partner_id"
  let dords :=
    match data.get "date_order" with
    | PyVal.str s => if s ≠ "" then strptimeAny s else Option.none
    | _ => Option.none
  { mobile_uid := if mu = PyVal.none then Option.none else Option.some mu
    partner_id := if pid = PyVal.none then Option.none else Option.some pid
    date_order := dords }

/-- Effect of `order.write(vals)` on a sale order row. -/
def applySaleVals (o : SaleOrder) (w : SaleVals) : SaleOrder :=
  { id := o.id
    mobile_uid := match w.mobile_uid with
                  | Option.some x => Option.some x
                  | Option.none => o.mobile_uid
    partner_id := match w.partner_id with
                  | Option.some x => Option.some x
                  | Option.none => o.partner_id
    date_order := match w.date_order with
                  | Option.some x => Option.some x
                  | Option.none => o.date_order }

/-- A freshly created sale order row. -/
def newSaleOrder (nid : Nat) (w : SaleVals) : SaleOrder :=
  { id := nid
    mobile_uid := w.mobile_uid
    partner_id := w.partner_id
    date_order := w.date_order }

/-- The `vals` dict built by `PaymentController.__dict_to_payment_vals`. -/
structure PaymentVals where
  mobile_uid : Option PyVal
  partner_id : Option PyVal
  amount : Option PyVal
  payment_type : Option String
  partner_type : Option String
  journal_id : Option PyVal
  date : Option Date
  ref : Option PyVal
  deriving DecidableEq

/-- `__dict_to_payment_vals(data)` (no-raise case for `date`): uses the
supplied `journal_id` when truthy, otherwise the first bank journal of
the current company; maps `memo` → `ref`; drops `None`-valued keys. -/
def dictToPaymentVals (data : Rec) (journals : List Journal) (companyId : Nat) :
    PaymentVals :=
  let mu := data.get "mobile_uid"
  let pid := data.get "partner_id"
  let amt := data.get "amount"
  let jid :=
    let v := data.get "journal_id"
    if pyTruthy v then Option.some v else defaultBankJournal
  let dparsed :=
    match data.get "date" with
    | PyVal.str s =>
        if s ≠ "" then
          match strptimeAny s with
          | Option.some dt => Option.some (Date.mk dt.year dt.month dt.day)
          | Option.none => Option.none
        else Option.none
    | _ => Option.none
  let memoV := data.get "memo"
  { mobile_uid := if mu = PyVal.none then Option.none else Option.some mu
    partner_id := if pid = PyVal.none then Option.none else Option.some pid
    amount := if amt = PyVal.none then Option.none else Option.some amt
    payment_type := Option.some "inbound"
    partner_type := Option.some "customer"
    journal_id := jid
    date := dparsed
    ref := if pyTruthy memoV then Option.some memoV else Option.none }
where
  /-- `search([('type','=','bank'),('company_id','=',company)], limit=1)`. -/
  defaultBankJournal : Option PyVal :=
    match journals.find? (fun j => j.jtype = "bank" && j.company_id = companyId) with
    | Option.some j => Option.some (PyVal.int (Int.ofNat j.id))
    | Option.none => Option.none

/-- Effect of `payment.write(vals)` on a payment row. -/
def applyPaymentVals (p : Payment) (w : PaymentVals) : Payment :=
  { id := p.id
    mobile_uid := match w.mobile_uid with
                  | Option.some x => Option.some x
                  | Option.none => p.mobile_uid
    partner_id := match w.partner_id with
                  | Option.some x => Option.some x
                  | Option.none => p.partner_id
    amount := match w.amount with
              | Option.some x => Option.some x
              | Option.none => p.amount
    payment_type := match w.payment_type with
                    | Option.some x => Option.some x
                    | Option.none => p.payment_type
    partner_type := match w.partner_type with
                    | Option.some x => Option.some x
                    | Option.none => p.partner_type
    journal_id := match w.journal_id with
                  | Option.some x => Option.some x
                  | Option.none => p.journal_id
    date := match w.date with
            | Option.some x => Option.some x
            | Option.none => p.date
    ref := match w.ref with
           | Option.some x => Option.some x
           | Option.none => p.ref }

/-- A freshly created payment row. -/
def newPayment (nid : Nat) (w : PaymentVals) : Payment :=
  { id := nid
    mobile_uid := w.mobile_uid
    partner_id := w.partner_id
    amount := w.amount
    payment_type := w.payment_type
    partner_type := w.partner_type
    journal_id := w.journal_id
    date := w.date
    ref := w.ref }

/-! ## Wire projections and responses -/

/-- The dict produced by `VisitController.__visit_to_dict` (the
system-maintained `write_date` is not modelled). -/
structure VisitOut where
  id : Nat
  mobile_uid : PyVal
  partner_id : Option PyVal
  partner_name : PyVal
  visit_datetime : Option String
  memo : PyVal
  deriving DecidableEq

/-- `__visit_to_dict(visit)`: falsy stored values are rendered as `''`
(for `mobile_uid`/`memo`) or `None`/`''` (for the partner reference);
the partner name is resolved against the partner table. -/
def visitToDict (partners : List Partner) (v : Visit) : VisitOut :=
  let uidStored := match v.mobile_uid with
                   | Option.some x => x
                   | Option.none => PyVal.none
  let pidStored := match v.partner_id with
                   | Option.some x => x
                   | Option.none => PyVal.none
  let pname :=
    match pidStored with
    | PyVal.int n =>
        if n ≠ 0 then
          match partners.find? (fun p => Int.ofNat p.id = n) with
          | Option.some p =>
              match p.name with
              | Option.some nm => nm
              | Option.none => PyVal.str ""
          | Option.none => PyVal.str ""
        else PyVal.str ""
    | _ => PyVal.str ""
  { id := v.id
    mobile_uid := if pyTruthy uidStored then uidStored else PyVal.str ""
    partner_id := if pyTruthy pidStored then Option.some pidStored else Option.none
    partner_name := pname
    visit_datetime := match v.visit_datetime with
                      | Option.some dt => Option.some (fmtDT dt)
                      | Option.none => Option.none
    memo := match v.memo with
            | Option.some m => if m ≠ "" then PyVal.str m else PyVal.str ""
            | Option.none => PyVal.str "" }

/-- The dict produced by `CustomerController._partner_to_dict`. -/
structure PartnerOut where
  id : Nat
  mobile_uid : PyVal
  name : PyVal
  city : Option PyVal
  tax_id : Option PyVal
  email : Option PyVal
  phone : Option PyVal
  website : Option PyVal
  date : Option String
  deriving DecidableEq

/-- `_partner_to_dict(partner)`: `x or ''` for uid and name, `x or None`
for the nullable fields, `vat` exposed as `tax_id`, the sync date
rendered `%Y-%m-%d`. -/
def partnerToDict (p : Partner) : PartnerOut :=
  let orNone (v : Option PyVal) : Option PyVal :=
    match v with
    | Option.some x => if pyTruthy x then Option.some x else Option.none
    | Option.none => Option.none
  let orEmpty (v : Option PyVal) : PyVal :=
    match v with
    | Option.some x => if pyTruthy x then x else PyVal.str ""
    | Option.none => PyVal.str ""
  { id := p.id
    mobile_uid := orEmpty p.mobile_uid
    name := orEmpty p.name
    city := orNone p.city
    tax_id := orNone p.vat
    email := orNone p.email
    phone := orNone p.phone
    website := orNone p.website
    date := match p.mobile_sync_date with
            | Option.some d => Option.some (fmtDate d)
            | Option.none => Option.none }

/-- Contents of the `details` member of an error body, one constructor
per dict shape occurring in the sources. -/
inductive Details : Type
  | uidEcho : PyVal → Details
  | missingList : List String → Details
  | uuidBad : PyVal → Details
  | dtBad : PyVal → PyVal → Details
  | memoLong : PyVal → Nat → Nat → Details
  | fkMissing : String → PyVal → String → Details
  | rate : Nat → Nat → Int → Details
  | text : String → Details
  deriving DecidableEq

/-- A response body: an error envelope or one of the success payloads. -/
inductive RespBody : Type
  | error : String → Option Details → RespBody
  | visitBatch : Nat → List VisitOut → RespBody
  | partnerList : List PartnerOut → RespBody
  deriving DecidableEq

/-- An HTTP response as built by `json_response`/`json_error`/
`_success_response`/`_error_response`. -/
structure Resp where
  status : Nat
  body : RespBody
  deriving DecidableEq

/-- `json_error(message, status, details)`. -/
def jsonError (message : String) (status : Nat) (details : Option Details) : Resp :=
  { status := status, body := RespBody.error message details }

/-! ## Shared request helpers (`auth.py`) -/

/-- The `missing` list computed by `validate_required_fields`: a field is
missing when absent or set to `None` (other falsy values pass). -/
def missingFields (data : Rec) (required : List String) : List String :=
  required.filter (fun f => !data.hasKey f || data.get f = PyVal.none)

/-- `validate_foreign_key(model, record_id, field_name)` against the set
of existing record ids of the target model.  A falsy `record_id` passes
(`if not record_id`).  A truthy value passes exactly when a record with
that id exists; `browse` on a truthy non-integer raises in Odoo, which a
controller surfaces as a 500 — modelled as the not-found failure, which
no settled claim distinguishes. -/
def validateForeignKey (ids : List Nat) (modelName : String) (recordId : PyVal)
    (fieldName : String) : Option Resp :=
  if !pyTruthy recordId then Option.none
  else
    let exists_ :=
      match recordId with
      | PyVal.int n => ids.any (fun i => Int.ofNat i = n)
      | _ => false
    if exists_ then Option.none
    else Option.some (jsonError ("Invalid " ++ fieldName) 400
      (Option.some (Details.fkMissing fieldName recordId modelName)))

/-- Python `int()` truncation toward zero on a rational. -/
def pyIntTrunc (q : ℚ) : ℤ :=
  if 0 ≤ q then ⌊q⌋ else ⌈q⌉

/-- The limiter constant `RATE_LIMIT_REQUESTS`. -/
def rateLimitRequests : Nat := 100

/-- The limiter constant `RATE_LIMIT_WINDOW` (seconds). -/
def rateLimitWindow : ℚ := 60

/-- The in-memory `_rate_limit_store`: per-client timestamp lists. -/
abbrev RateStore : Type := List (String × List ℚ)

/-- Timestamp list recorded for a client (missing key ↦ `[]`). -/
def RateStore.entry (st : RateStore) (clientId : String) : List ℚ :=
  match st.find? (fun p => p.1 = clientId) with
  | Option.some p => p.2
  | Option.none => []

/-- Store update `_rate_limit_store[client_id] = l`. -/
def RateStore.setEntry (st : RateStore) (clientId : String) (l : List ℚ) :
    RateStore :=
  if (st.find? (fun p => p.1 = clientId)).isSome then
    st.map (fun p => if p.1 = clientId then (p.1, l) else p)
  else st ++ [(clientId, l)]

/-- `check_rate_limit()` for a given client key and clock reading: purge
timestamps at or older than `now - window`, reject with 429 when 100 or
more remain (reporting `int(window - (now - purged[0]))` as
`retry_after`), otherwise append `now` and allow.  Returns the
`(is_allowed, error_response)` pair and the updated store.
`purgedStamps` is the purge comprehension
`[t for t in store[client_id] if t > window_start]`. -/
def purgedStamps (st : RateStore) (clientId : String) (now : ℚ) : List ℚ :=
  (st.entry clientId).filter (fun t => now - rateLimitWindow < t)

/-- `check_rate_limit()` after the purge: the branch on the remaining
count, mutating the client entry either way. -/
def checkRateLimit (st : RateStore) (clientId : String) (now : ℚ) :
    (Bool × Option Resp) × RateStore :=
  let purged := purgedStamps st clientId now
  if rateLimitRequests ≤ purged.length then
    let oldest := purged.headD 0
    let retry := pyIntTrunc (rateLimitWindow - (now - oldest))
    ((false, Option.some (jsonError "Rate limit exceeded" 429
        (Option.some (Details.rate rateLimitRequests 60 retry)))),
      st.setEntry clientId purged)
  else
    ((true, Option.none), st.setEntry clientId (purged ++ [now]))

/-! ## The database cursor

The request-scoped PostgreSQL transaction behind `request.env.cr`.
`rows` is what `search` sees (the snapshot plus this transaction's own
writes); `base` is the snapshot at transaction start; `ext` holds rows
committed concurrently by other transactions — invisible to `search`
under the transaction's snapshot, yet conflicting with inserts through
the UNIQUE index; `saves` is the savepoint stack (`cr.savepoint()` uses
one level); `aborted` is PostgreSQL's failed-transaction state, in which
every further statement raises until a rollback.

Semantics mirrored from PostgreSQL/psycopg2/Odoo:
* `cr.rollback()` (`connection.rollback()`) ends the transaction: own
  writes are discarded, every savepoint is destroyed, and the next
  statement runs in a new transaction whose snapshot now includes the
  concurrently committed rows.
* `RELEASE SAVEPOINT` / `ROLLBACK TO SAVEPOINT` on a destroyed savepoint
  raises and leaves the transaction failed.
* Odoo's HTTP dispatch commits the cursor whenever the controller
  returns a `Response` (of any status); committing a failed transaction
  persists nothing of it. -/
structure Cr (α : Type) where
  base : List α
  rows : List α
  ext : List α
  saves : List (List α)
  aborted : Bool

/-- A transaction at its start: snapshot `committed`, with `ext` the rows
other transactions commit while this request runs. -/
def Cr.start {α : Type} (committed ext : List α) : Cr α :=
  { base := committed, rows := committed, ext := ext, saves := [], aborted := false }

/-- `cr.rollback()`: discard own writes, destroy savepoints, take a fresh
snapshot that includes the concurrently committed rows. -/
def Cr.rollbackAll {α : Type} (cr : Cr α) : Cr α :=
  { base := cr.base ++ cr.ext, rows := cr.base ++ cr.ext, ext := [],
    saves := [], aborted := false }

/-- `SAVEPOINT name` on entry to `with cr.savepoint():`. -/
def Cr.pushSave {α : Type} (cr : Cr α) : Cr α :=
  { cr with saves := cr.rows :: cr.saves }

/-- `RELEASE SAVEPOINT` on normal exit of the context manager; releasing
a destroyed savepoint raises (`false`) and fails the transaction. -/
def Cr.releaseSave {α : Type} (cr : Cr α) : Cr α × Bool :=
  match cr.saves with
  | s :: rest => let _ := s; ({ cr with saves := rest }, true)
  | [] => ({ cr with aborted := true }, false)

/-- `ROLLBACK TO SAVEPOINT` on exceptional exit of the context manager;
the savepoint may likewise no longer exist. -/
def Cr.rollbackToSave {α : Type} (cr : Cr α) : Cr α × Bool :=
  match cr.saves with
  | s :: rest => ({ cr with rows := s, saves := rest }, true)
  | [] => ({ cr with aborted := true }, false)

/-- The rows durable after request-end commit: nothing of a failed
transaction, otherwise the transaction's view, in both cases together
with the concurrently committed rows. -/
def Cr.commitRows {α : Type} (cr : Cr α) : List α :=
  if cr.aborted then cr.base ++ cr.ext else cr.rows ++ cr.ext

/-! ## Visit controller (`visit_controller.py`, POST `/visits`) -/

/-- `search([('mobile_uid', '=', u)], limit=1)` over visit rows.  Under
the UNIQUE constraint at most one row matches, so which one the model
order returns is immaterial. -/
def visitFindUid (rows : List Visit) (u : PyVal) : Option Visit :=
  rows.find? (fun r => r.mobile_uid = Option.some u)

/-- `record.write(vals)`: replace the row with the given id. -/
def visitWriteById (rows : List Visit) (target v2 : Visit) : List Visit :=
  rows.map (fun r => if r.id = target.id then v2 else r)

/-- Whether `create(vals)` hits the `mobile_uid_unique` constraint: some
visible or concurrently committed row already carries the uid. -/
def visitUidConflict (cr : Cr Visit) (w : VisitVals) : Bool :=
  match w.mobile_uid with
  | Option.some u => (visitFindUid cr.rows u).isSome || (visitFindUid cr.ext u).isSome
  | Option.none => false

/-- Fresh id for a created row (sequence past every existing id). -/
def visitNextId (cr : Cr Visit) : Nat :=
  (cr.rows ++ cr.ext).foldr (fun v m => max v.id m) 0 + 1

/-- Outcome of the per-record loop inside `with cr.savepoint():` —
completion, an early `return` with a response (which exits the context
manager normally), or an exception propagating out of the loop body. -/
inductive VLoop : Type
  | done : List VisitOut → Cr Visit → VLoop
  | ret : Resp → Cr Visit → VLoop
  | exc : Cr Visit → VLoop

/-- Outcome of one iteration of the `create_visits` loop body:
continue with the produced response dict, return a response early, or
raise out of the loop. -/
inductive StepRes : Type
  | cont : Cr Visit → VisitOut → StepRes
  | ret : Resp → Cr Visit → StepRes
  | exc : Cr Visit → StepRes

/-- The `for idx, visit_data in enumerate(payload):` body of
`VisitController.create_visits`, lines 102–162: required fields, UUID
shape, datetime parse, memo length, foreign key, then upsert with the
`IntegrityError` → `cr.rollback()` → retry-as-update recovery. -/
def visitStep (partners : List Partner) (d : Rec) (idx : Nat) (cr : Cr Visit) :
    StepRes :=
  if missingFields d ["mobile_uid", "partner_id", "visit_datetime"] ≠ [] then
    StepRes.ret (jsonError
      ("Validation failed at index " ++ toString idx ++ ": missing required fields")
      400 (Option.some (Details.uidEcho
        (d.getD "mobile_uid" (PyVal.str ("item_" ++ toString idx)))))) cr
  else
    let mu := d.get "mobile_uid"
    if !codeUuidMatch (pyStr mu) then
      StepRes.ret (jsonError
        ("Validation failed at index " ++ toString idx ++ ": invalid mobile_uid format")
        400 (Option.some (Details.uuidBad mu))) cr
    else
      match parseDatetimePy (d.get "visit_datetime") with
      | DtParse.raise => StepRes.exc cr
      | DtParse.fail =>
          StepRes.ret (jsonError
            ("Validation failed at index " ++ toString idx ++
              ": invalid visit_datetime format")
            400 (Option.some (Details.dtBad mu (d.get "visit_datetime")))) cr
      | DtParse.ok pdt =>
        let memoV := d.get "memo"
        if pyTruthy memoV && decide (5000 < (pyStr memoV).length) then
          StepRes.ret (jsonError
            ("Validation failed at index " ++ toString idx ++
              ": memo exceeds maximum length")
            400 (Option.some (Details.memoLong mu 5000 (pyStr memoV).length))) cr
        else
          match validateForeignKey (partners.map (fun p => p.id)) "res.partner"
              (d.get "partner_id") "partner_id" with
          | Option.some e => StepRes.ret e cr
          | Option.none =>
            let w := dictToVisitVals d (Option.some pdt)
            if cr.aborted then StepRes.exc cr
            else
              match visitFindUid cr.rows mu with
              | Option.some v =>
                  let v2 := applyVisitVals v { w with mobile_uid := Option.none }
                  StepRes.cont { cr with rows := visitWriteById cr.rows v v2 }
                    (visitToDict partners v2)
              | Option.none =>
                  if visitUidConflict cr w then
                    -- IntegrityError: the handler calls the full
                    -- `request.env.cr.rollback()` and retries as update
                    let cr2 := Cr.rollbackAll cr
                    match visitFindUid cr2.rows mu with
                    | Option.some v =>
                        let v2 := applyVisitVals v { w with mobile_uid := Option.none }
                        StepRes.cont { cr2 with rows := visitWriteById cr2.rows v v2 }
                          (visitToDict partners v2)
                    | Option.none => StepRes.exc cr2
                  else
                    let nv := newVisit (visitNextId cr) w
                    StepRes.cont { cr with rows := cr.rows ++ [nv] }
                      (visitToDict partners nv)

/-- The loop of `create_visits`: run the body on each record, appending
each produced dict to `created_visits`. -/
def processVisits (partners : List Partner) :
    List Rec → Nat → Cr Visit → List VisitOut → VLoop
  | [], _, cr, acc => VLoop.done acc cr
  | d :: rest, idx, cr, acc =>
    match visitStep partners d idx cr with
    | StepRes.cont cr2 out => processVisits partners rest (idx + 1) cr2 (acc ++ [out])
    | StepRes.ret r cr2 => VLoop.ret r cr2
    | StepRes.exc cr2 => VLoop.exc cr2

/-- The structural checks of `create_visits` preceding the savepoint:
body must be a JSON array (`Option.none` models a parsed non-array
body), non-empty, and at most 100 records. -/
def visitStructCheck (body : Option (List Rec)) : Except Resp (List Rec) :=
  match body with
  | Option.none => Except.error (jsonError "Request body must be a JSON array" 400 Option.none)
  | Option.some payload =>
    if payload.length = 0 then
      Except.error (jsonError "Request body cannot be empty" 400 Option.none)
    else if 100 < payload.length then
      Except.error (jsonError "Batch size cannot exceed 100 records" 400 Option.none)
    else Except.ok payload

/-- `VisitController.create_visits` after rate limiting and
authentication: structural checks, the savepoint-scoped loop, the outer
catch-all (every exception becomes a 500 response), and the dispatcher
commit.  Returns the response and the durably persisted visit rows. -/
def createVisits (partners : List Partner) (body : Option (List Rec))
    (cr : Cr Visit) : Resp × List Visit :=
  match visitStructCheck body with
  | Except.error r => (r, Cr.commitRows cr)
  | Except.ok payload =>
    let cr1 := Cr.pushSave cr
    match processVisits partners payload 0 cr1 [] with
    | VLoop.done acc cr2 =>
        match Cr.releaseSave cr2 with
        | (cr3, true) =>
            ({ status := 200, body := RespBody.visitBatch acc.length acc },
              Cr.commitRows cr3)
        | (cr3, false) =>
            (jsonError "Internal server error" 500
              (Option.some (Details.text "savepoint does not exist")),
              Cr.commitRows cr3)
    | VLoop.ret resp cr2 =>
        match Cr.releaseSave cr2 with
        | (cr3, true) => (resp, Cr.commitRows cr3)
        | (cr3, false) =>
            (jsonError "Internal server error" 500
              (Option.some (Details.text "savepoint does not exist")),
              Cr.commitRows cr3)
    | VLoop.exc cr2 =>
        let step := Cr.rollbackToSave cr2
        (jsonError "Internal server error" 500
          (Option.some (Details.text "exception")),
          Cr.commitRows step.1)

/-! ## Customer controller (`customer_controller.py`, POST `/customer`) -/

/-- `Partner.search([('mobile_uid', '=', u)], limit=1)`. -/
def partnerFindUid (rows : List Partner) (u : PyVal) : Option Partner :=
  rows.find? (fun r => r.mobile_uid = Option.some u)

/-- `partner.write(vals)`: replace the row with the given id. -/
def partnerWriteById (rows : List Partner) (target p2 : Partner) : List Partner :=
  rows.map (fun r => if r.id = target.id then p2 else r)

/-- Uniqueness conflict of a partner create against concurrent commits. -/
def partnerUidConflict (cr : Cr Partner) (w : PartnerVals) : Bool :=
  match w.mobile_uid with
  | Option.some u => (partnerFindUid cr.rows u).isSome || (partnerFindUid cr.ext u).isSome
  | Option.none => false

/-- Fresh id for a created partner row. -/
def partnerNextId (cr : Cr Partner) : Nat :=
  (cr.rows ++ cr.ext).foldr (fun v m => max v.id m) 0 + 1

/-- Outcome of one iteration of the `create_customers` loop: a produced
response dict, or a recorded error (the `except` block appends to
`errors` and continues — the response never reflects it). -/
inductive CStep : Type
  | okOut : Cr Partner → PartnerOut → CStep
  | skip : Cr Partner → CStep

/-- One iteration of `CustomerController.create_customers`, lines
205–247: truthiness checks for `name` and `mobile_uid` are recorded as
errors and skipped; the upsert runs inside a per-record `try` whose
handler records the error and continues (so a raised `TypeError`, an
`IntegrityError`, or any statement in an already-failed transaction
merely skips the record). -/
def customerStep (cr : Cr Partner) (d : Rec) : CStep :=
  if !pyTruthy (d.get "name") then CStep.skip cr
  else if !pyTruthy (d.get "mobile_uid") then CStep.skip cr
  else if cr.aborted then CStep.skip cr
  else
    let mu := d.get "mobile_uid"
    match partnerFindUid cr.rows mu with
    | Option.some p =>
        match dictToPartnerVals d with
        | Except.error _ => CStep.skip cr
        | Except.ok w =>
            let p2 := applyPartnerVals p { w with mobile_uid := Option.none }
            CStep.okOut { cr with rows := partnerWriteById cr.rows p p2 }
              (partnerToDict p2)
    | Option.none =>
        match dictToPartnerVals d with
        | Except.error _ => CStep.skip cr
        | Except.ok w =>
            if partnerUidConflict cr w then CStep.skip { cr with aborted := true }
            else
              let nv := newPartner (partnerNextId cr) w
              CStep.okOut { cr with rows := cr.rows ++ [nv] } (partnerToDict nv)

/-- The full `create_customers` loop: error-collecting, never aborting. -/
def processCustomers : List Rec → Cr Partner → List PartnerOut →
    Cr Partner × List PartnerOut
  | [], cr, acc => (cr, acc)
  | d :: rest, cr, acc =>
    match customerStep cr d with
    | CStep.okOut cr2 outd => processCustomers rest cr2 (acc ++ [outd])
    | CStep.skip cr2 => processCustomers rest cr2 acc

/-- `CustomerController.create_customers` after authentication: the only
structural check is that the body is a JSON array; there is no batch
cap, no empty-body rejection, no savepoint, and the response is always a
200 with the successfully created/updated records (collected errors are
only logged).  Returns the response and the durable partner rows. -/
def createCustomers (body : Option (List Rec)) (cr : Cr Partner) :
    Resp × List Partner :=
  match body with
  | Option.none =>
      (jsonError "Request body must be a JSON array" 400 Option.none,
        Cr.commitRows cr)
  | Option.some payload =>
      let res := processCustomers payload cr []
      ({ status := 200, body := RespBody.partnerList res.2 },
        Cr.commitRows res.1)

/-! ## The upsert-by-`mobile_uid` block, per entity

All four POST endpoints repeat the same three lines: search limit 1 by
`mobile_uid`; when found, `vals.pop('mobile_uid', None)` and `write`;
otherwise `create`.  The conflict-free step of each controller, as a
pure function of the visible rows (`nid` is the sequence id a create
would receive). -/

/-- The upsert block of `create_visits` (lines 143–150). -/
def visitUpsertPure (rows : List Visit) (u : PyVal) (w : VisitVals) (nid : Nat) :
    Visit × List Visit :=
  match visitFindUid rows u with
  | Option.some v =>
      let v2 := applyVisitVals v { w with mobile_uid := Option.none }
      (v2, visitWriteById rows v v2)
  | Option.none =>
      let nv := newVisit nid w
      (nv, rows ++ [nv])

/-- The upsert block of `create_customers` (lines 221–239). -/
def partnerUpsertPure (rows : List Partner) (u : PyVal) (w : PartnerVals)
    (nid : Nat) : Partner × List Partner :=
  match partnerFindUid rows u with
  | Option.some p =>
      let p2 := applyPartnerVals p { w with mobile_uid := Option.none }
      (p2, partnerWriteById rows p p2)
  | Option.none =>
      let nv := newPartner nid w
      (nv, rows ++ [nv])

/-- `search([('mobile_uid', '=', u)], limit=1)` over sale orders. -/
def saleFindUid (rows : List SaleOrder) (u : PyVal) : Option SaleOrder :=
  rows.find? (fun r => r.mobile_uid = Option.some u)

/-- `order.write(vals)`: replace the row with the given id. -/
def saleWriteById (rows : List SaleOrder) (target v2 : SaleOrder) : List SaleOrder :=
  rows.map (fun r => if r.id = target.id then v2 else r)

/-- The upsert block of `create_sales` (lines 108–115). -/
def saleUpsertPure (rows : List SaleOrder) (u : PyVal) (w : SaleVals) (nid : Nat) :
    SaleOrder × List SaleOrder :=
  match saleFindUid rows u with
  | Option.some o =>
      let o2 := applySaleVals o { w with mobile_uid := Option.none }
      (o2, saleWriteById rows o o2)
  | Option.none =>
      let nv := newSaleOrder nid w
      (nv, rows ++ [nv])

/-- `search([('mobile_uid', '=', u)], limit=1)` over payments. -/
def paymentFindUid (rows : List Payment) (u : PyVal) : Option Payment :=
  rows.find? (fun r => r.mobile_uid = Option.some u)

/-- `payment.write(vals)`: replace the row with the given id. -/
def paymentWriteById (rows : List Payment) (target v2 : Payment) : List Payment :=
  rows.map (fun r => if r.id = target.id then v2 else r)

/-- The upsert block of `create_payments` (lines 114–121). -/
def paymentUpsertPure (rows : List Payment) (u : PyVal) (w : PaymentVals)
    (nid : Nat) : Payment × List Payment :=
  match paymentFindUid rows u with
  | Option.some p =>
      let p2 := applyPaymentVals p { w with mobile_uid := Option.none }
      (p2, paymentWriteById rows p p2)
  | Option.none =>
      let nv := newPayment nid w
      (nv, rows ++ [nv])

/-! ## Change notifier (`webhook.py`) -/

/-- An `android.api.webhook` subscription row.  `last_triggered` (a mere
timestamp) is not modelled. -/
structure Webhook where
  id : Nat
  url : String
  secret : Option String
  active : Bool
  on_customer_create : Bool
  on_customer_update : Bool
  on_sale_create : Bool
  on_sale_update : Bool
  on_delivery_create : Bool
  on_delivery_update : Bool
  on_payment_create : Bool
  on_payment_update : Bool
  last_status : Option String
  last_error : Option String
  deriving DecidableEq

/-- The `event_field_map` of `AndroidApiWebhook.notify`: the boolean
flag selected by each known event name. -/
def eventFlag (event : String) : Option (Webhook → Bool) :=
  if event = "customer.created" then Option.some (fun w => w.on_customer_create)
  else if event = "customer.updated" then Option.some (fun w => w.on_customer_update)
  else if event = "sale.created" then Option.some (fun w => w.on_sale_create)
  else if event = "sale.updated" then Option.some (fun w => w.on_sale_update)
  else if event = "delivery.created" then Option.some (fun w => w.on_delivery_create)
  else if event = "delivery.updated" then Option.some (fun w => w.on_delivery_update)
  else if event = "payment.created" then Option.some (fun w => w.on_payment_create)
  else if event = "payment.updated" then Option.some (fun w => w.on_payment_update)
  else Option.none

/-- Outcome of one webhook HTTP delivery (`requests.post` +
`raise_for_status`): success, or a `RequestException` with its text. -/
abbrev DeliveryOutcome := Except String Unit

/-- `AndroidApiWebhook.trigger`: posts the payload and records the
outcome on the subscription; the `except RequestException` branch makes
delivery failure a recorded state change, never a raised error
(`last_error` is written `False`, i.e. cleared, on success). -/
def triggerHook (w : Webhook) (outcome : DeliveryOutcome) : Webhook :=
  match outcome with
  | Except.ok _ =>
      { w with last_status := Option.some "success", last_error := Option.none }
  | Except.error e =>
      { w with last_status := Option.some "failed", last_error := Option.some e }

/-- The subscriptions `notify` selects for an event:
`search([('active','=',True), (field_name,'=',True)])`, or none at all
when the event has no mapped flag. -/
def notifyTargets (subs : List Webhook) (event : String) : List Webhook :=
  match eventFlag event with
  | Option.none => []
  | Option.some f => subs.filter (fun w => w.active && f w)

/-- `AndroidApiWebhook.notify`: dispatch to every selected subscription,
recording each delivery outcome; unselected subscriptions are untouched. -/
def notifyRun (subs : List Webhook) (event : String)
    (deliver : Webhook → DeliveryOutcome) : List Webhook :=
  match eventFlag event with
  | Option.none => subs
  | Option.some f =>
      subs.map (fun w => if w.active && f w then triggerHook w (deliver w) else w)

/-- Value stored in an optional column, as Python reads it (`False` for
NULL; here `None` stands for the falsy unset value). -/
def optPy (o : Option PyVal) : PyVal :=
  match o with
  | Option.some x => x
  | Option.none => PyVal.none

/-- `ResPartnerWebhook.create`: after a partner create, fire
`customer.created` for each record carrying a truthy `mobile_uid`. -/
def partnerCreateEvents (records : List Partner) : List (String × Nat) :=
  records.filterMap (fun r =>
    if pyTruthy (optPy r.mobile_uid) then Option.some ("customer.created", r.id)
    else Option.none)

/-- `ResPartnerWebhook.write`: after a partner write, fire
`customer.updated` for each record carrying a truthy `mobile_uid`. -/
def partnerWriteEvents (records : List Partner) : List (String × Nat) :=
  records.filterMap (fun r =>
    if pyTruthy (optPy r.mobile_uid) then Option.some ("customer.updated", r.id)
    else Option.none)

/-- `ResPartnerWebhook.create` for one record: the ORM create followed by
the conditional `customer.created` notification.  The notification step
consumes only the subscriptions; the created rows are fixed before it
runs, which is how "failures never roll back the write" shows up in the
embedding. -/
def partnerCreateWithHook (rows : List Partner) (w : PartnerVals) (nid : Nat)
    (subs : List Webhook) (deliver : Webhook → DeliveryOutcome) :
    (List Partner × Partner) × List Webhook :=
  let created := newPartner nid w
  ((rows ++ [created], created),
    if pyTruthy (optPy created.mobile_uid) then
      notifyRun subs "customer.created" deliver
    else subs)

/-! ## Shared lemmas on the upsert write -/

/-- No row carries uid `u` when `u` is absent from the collected uids. -/
lemma filter_uid_eq_nil {α : Type} (uidOf : α → Option PyVal) (u : PyVal) :
    ∀ l : List α, u ∉ l.filterMap uidOf →
      l.filter (fun r => uidOf r = Option.some u) = [] := by
  intro l
  induction l with
  | nil => intro _; rfl
  | cons a t ih =>
    intro h
    have ha : ¬ uidOf a = Option.some u := by
      intro hc
      exact h (by simp [List.filterMap_cons, hc])
    have ht : u ∉ t.filterMap uidOf := by
      intro hc
      apply h
      cases hfa : uidOf a with
      | none => simpa [List.filterMap_cons, hfa] using hc
      | some b => simp [List.filterMap_cons, hfa, hc]
    simp [List.filter_cons, ha, ih ht]

/-- An id-targeted write leaves rows with other ids untouched. -/
lemma map_write_other {α : Type} (idOf : α → Nat) (k : Nat) (x : α) :
    ∀ l : List α, (∀ s ∈ l, idOf s ≠ k) →
      l.map (fun s => if idOf s = k then x else s) = l := by
  intro l
  induction l with
  | nil => intro _; rfl
  | cons a t ih =>
    intro h
    have ha := h a (List.mem_cons_self a t)
    simp only [List.map_cons, if_neg ha]
    rw [ih (fun s hs => h s (List.mem_cons_of_mem a hs))]

/-- Writing the row found by uid, in a store whose uids and ids are
unique, leaves `x` as the single row carrying that uid. -/
lemma write_filter_spec {α : Type} (uidOf : α → Option PyVal) (idOf : α → Nat)
    (x : α) (u : PyVal) :
    ∀ (rows : List α) (v : α),
      (rows.filterMap uidOf).Nodup →
      (rows.map idOf).Nodup →
      rows.find? (fun r => uidOf r = Option.some u) = Option.some v →
      uidOf x = Option.some u →
      (rows.map (fun r => if idOf r = idOf v then x else r)).filter
          (fun r => uidOf r = Option.some u) = [x] := by
  intro rows
  induction rows with
  | nil => intro v _ _ hfind _; simp [List.find?] at hfind
  | cons a t ih =>
    intro v hu hi hfind hx
    by_cases hp : uidOf a = Option.some u
    · have hfa : (a :: t).find? (fun r => uidOf r = Option.some u) = Option.some a :=
        List.find?_cons_of_pos _ (by simpa using hp)
      have hva : v = a := by
        rw [hfa] at hfind
        exact (Option.some.injEq _ _ ▸ hfind.symm :)
      subst hva
      have hi2 : (idOf v :: t.map idOf).Nodup := by rw [List.map_cons] at hi; exact hi
      have hidm : idOf v ∉ t.map idOf := (List.nodup_cons.mp hi2).1
      have htail : t.map (fun s => if idOf s = idOf v then x else s) = t := by
        apply map_write_other
        intro s hs hc
        exact hidm (hc ▸ List.mem_map_of_mem idOf hs)
      have hunotin : u ∉ t.filterMap uidOf := by
        have := hu
        rw [List.filterMap_cons, hp] at this
        exact (List.nodup_cons.mp this).1
      simp only [List.map_cons, if_pos rfl, htail, List.filter_cons]
      simp [hx, filter_uid_eq_nil uidOf u t hunotin]
    · have hfa : (a :: t).find? (fun r => uidOf r = Option.some u) =
          t.find? (fun r => uidOf r = Option.some u) :=
        List.find?_cons_of_neg _ (by simpa using hp)
      rw [hfa] at hfind
      have hvmem : v ∈ t := List.mem_of_find?_eq_some hfind
      have hi2 : (idOf a :: t.map idOf).Nodup := by rw [List.map_cons] at hi; exact hi
      have hida : idOf a ≠ idOf v := by
        intro hc
        exact (List.nodup_cons.mp hi2).1 (hc ▸ List.mem_map_of_mem idOf hvmem)
      have hutail : (t.filterMap uidOf).Nodup := by
        cases hfa2 : uidOf a with
        | none => rw [List.filterMap_cons, hfa2] at hu; exact hu
        | some b =>
            rw [List.filterMap_cons, hfa2] at hu
            exact (List.nodup_cons.mp hu).2
      have hitail : (t.map idOf).Nodup := (List.nodup_cons.mp hi2).2
      simp only [List.map_cons, if_neg hida, List.filter_cons]
      simp [hp, ih v hutail hitail hfind hx]

/-- Upsert on an existing visit uid: the store size is unchanged and the
written row is the unique carrier of the uid. -/
lemma visitUpsert_exists_spec (rows : List Visit) (u : PyVal) (w : VisitVals)
    (nid : Nat)
    (hu : (rows.filterMap Visit.mobile_uid).Nodup)
    (hi : (rows.map Visit.id).Nodup)
    (hex : ∃ v ∈ rows, v.mobile_uid = Option.some u) :
    (visitUpsertPure rows u w nid).2.length = rows.length ∧
    ∃ v ∈ rows, v.mobile_uid = Option.some u ∧
      (visitUpsertPure rows u w nid).2.filter (fun r => r.mobile_uid = Option.some u)
        = [applyVisitVals v { w with mobile_uid := Option.none }] := by
  obtain ⟨v, hvmem, hvu⟩ := hex
  have hs : (rows.find? (fun r => r.mobile_uid = Option.some u)).isSome :=
    List.find?_isSome.mpr ⟨v, hvmem, by simp [hvu]⟩
  obtain ⟨v0, hfind⟩ := Option.isSome_iff_exists.mp hs
  have hv0u : v0.mobile_uid = Option.some u := by
    have := List.find?_some hfind
    simpa using this
  have hv0mem : v0 ∈ rows := List.mem_of_find?_eq_some hfind
  have hup : visitUpsertPure rows u w nid =
      (applyVisitVals v0 { w with mobile_uid := Option.none },
        visitWriteById rows v0 (applyVisitVals v0 { w with mobile_uid := Option.none })) := by
    simp [visitUpsertPure, visitFindUid, hfind]
  constructor
  · rw [hup]; simp [visitWriteById]
  · refine ⟨v0, hv0mem, hv0u, ?_⟩
    rw [hup]
    have hx : (applyVisitVals v0 { w with mobile_uid := Option.none }).mobile_uid
        = Option.some u := by
      simp [applyVisitVals, hv0u]
    simpa [visitWriteById] using
      write_filter_spec Visit.mobile_uid Visit.id
        (applyVisitVals v0 { w with mobile_uid := Option.none }) u rows v0 hu hi hfind hx

/-- Upsert on an existing partner uid: size unchanged, unique carrier. -/
lemma partnerUpsert_exists_spec (rows : List Partner) (u : PyVal) (w : PartnerVals)
    (nid : Nat)
    (hu : (rows.filterMap Partner.mobile_uid).Nodup)
    (hi : (rows.map Partner.id).Nodup)
    (hex : ∃ v ∈ rows, v.mobile_uid = Option.some u) :
    (partnerUpsertPure rows u w nid).2.length = rows.length ∧
    ∃ v ∈ rows, v.mobile_uid = Option.some u ∧
      (partnerUpsertPure rows u w nid).2.filter (fun r => r.mobile_uid = Option.some u)
        = [applyPartnerVals v { w with mobile_uid := Option.none }] := by
  obtain ⟨v, hvmem, hvu⟩ := hex
  have hs : (rows.find? (fun r => r.mobile_uid = Option.some u)).isSome :=
    List.find?_isSome.mpr ⟨v, hvmem, by simp [hvu]⟩
  obtain ⟨v0, hfind⟩ := Option.isSome_iff_exists.mp hs
  have hv0u : v0.mobile_uid = Option.some u := by
    have := List.find?_some hfind
    simpa using this
  have hv0mem : v0 ∈ rows := List.mem_of_find?_eq_some hfind
  have hup : partnerUpsertPure rows u w nid =
      (applyPartnerVals v0 { w with mobile_uid := Option.none },
        partnerWriteById rows v0 (applyPartnerVals v0 { w with mobile_uid := Option.none })) := by
    simp [partnerUpsertPure, partnerFindUid, hfind]
  constructor
  · rw [hup]; simp [partnerWriteById]
  · refine ⟨v0, hv0mem, hv0u, ?_⟩
    rw [hup]
    have hx : (applyPartnerVals v0 { w with mobile_uid := Option.none }).mobile_uid
        = Option.some u := by
      simp [applyPartnerVals, hv0u]
    simpa [partnerWriteById] using
      write_filter_spec Partner.mobile_uid Partner.id
        (applyPartnerVals v0 { w with mobile_uid := Option.none }) u rows v0 hu hi hfind hx

/-- Upsert on an existing sale-order uid: size unchanged, unique carrier. -/
lemma saleUpsert_exists_spec (rows : List SaleOrder) (u : PyVal) (w : SaleVals)
    (nid : Nat)
    (hu : (rows.filterMap SaleOrder.mobile_uid).Nodup)
    (hi : (rows.map SaleOrder.id).Nodup)
    (hex : ∃ v ∈ rows, v.mobile_uid = Option.some u) :
    (saleUpsertPure rows u w nid).2.length = rows.length ∧
    ∃ v ∈ rows, v.mobile_uid = Option.some u ∧
      (saleUpsertPure rows u w nid).2.filter (fun r => r.mobile_uid = Option.some u)
        = [applySaleVals v { w with mobile_uid := Option.none }] := by
  obtain ⟨v, hvmem, hvu⟩ := hex
  have hs : (rows.find? (fun r => r.mobile_uid = Option.some u)).isSome :=
    List.find?_isSome.mpr ⟨v, hvmem, by simp [hvu]⟩
  obtain ⟨v0, hfind⟩ := Option.isSome_iff_exists.mp hs
  have hv0u : v0.mobile_uid = Option.some u := by
    have := List.find?_some hfind
    simpa using this
  have hv0mem : v0 ∈ rows := List.mem_of_find?_eq_some hfind
  have hup : saleUpsertPure rows u w nid =
      (applySaleVals v0 { w with mobile_uid := Option.none },
        saleWriteById rows v0 (applySaleVals v0 { w with mobile_uid := Option.none })) := by
    simp [saleUpsertPure, saleFindUid, hfind]
  constructor
  · rw [hup]; simp [saleWriteById]
  · refine ⟨v0, hv0mem, hv0u, ?_⟩
    rw [hup]
    have hx : (applySaleVals v0 { w with mobile_uid := Option.none }).mobile_uid
        = Option.some u := by
      simp [applySaleVals, hv0u]
    simpa [saleWriteById] using
      write_filter_spec SaleOrder.mobile_uid SaleOrder.id
        (applySaleVals v0 { w with mobile_uid := Option.none }) u rows v0 hu hi hfind hx

/-- Upsert on an existing payment uid: size unchanged, unique carrier. -/
lemma paymentUpsert_exists_spec (rows : List Payment) (u : PyVal) (w : PaymentVals)
    (nid : Nat)
    (hu : (rows.filterMap Payment.mobile_uid).Nodup)
    (hi : (rows.map Payment.id).Nodup)
    (hex : ∃ v ∈ rows, v.mobile_uid = Option.some u) :
    (paymentUpsertPure rows u w nid).2.length = rows.length ∧
    ∃ v ∈ rows, v.mobile_uid = Option.some u ∧
      (paymentUpsertPure rows u w nid).2.filter (fun r => r.mobile_uid = Option.some u)
        = [applyPaymentVals v { w with mobile_uid := Option.none }] := by
  obtain ⟨v, hvmem, hvu⟩ := hex
  have hs : (rows.find? (fun r => r.mobile_uid = Option.some u)).isSome :=
    List.find?_isSome.mpr ⟨v, hvmem, by simp [hvu]⟩
  obtain ⟨v0, hfind⟩ := Option.isSome_iff_exists.mp hs
  have hv0u : v0.mobile_uid = Option.some u := by
    have := List.find?_some hfind
    simpa using this
  have hv0mem : v0 ∈ rows := List.mem_of_find?_eq_some hfind
  have hup : paymentUpsertPure rows u w nid =
      (applyPaymentVals v0 { w with mobile_uid := Option.none },
        paymentWriteById rows v0 (applyPaymentVals v0 { w with mobile_uid := Option.none })) := by
    simp [paymentUpsertPure, paymentFindUid, hfind]
  constructor
  · rw [hup]; simp [paymentWriteById]
  · refine ⟨v0, hv0mem, hv0u, ?_⟩
    rw [hup]
    have hx : (applyPaymentVals v0 { w with mobile_uid := Option.none }).mobile_uid
        = Option.some u := by
      simp [applyPaymentVals, hv0u]
    simpa [paymentWriteById] using
      write_filter_spec Payment.mobile_uid Payment.id
        (applyPaymentVals v0 { w with mobile_uid := Option.none }) u rows v0 hu hi hfind hx

/-! ## Claim C2 -/

/-- Claim C2: for every syncable entity type (Customer, SaleOrder,
Payment, Visit), submitting a batch record whose `mobile_uid` already
exists in a store with unique uids/ids leaves the store size unchanged
and exactly one stored record with that uid — the existing record,
updated with the submitted values minus `mobile_uid` — so a duplicate is
never created. -/
theorem claim_C2_upsert_idempotence :
    (∀ (rows : List Visit) (u : PyVal) (w : VisitVals) (nid : Nat),
      (rows.filterMap Visit.mobile_uid).Nodup →
      (rows.map Visit.id).Nodup →
      (∃ v ∈ rows, v.mobile_uid = Option.some u) →
      (visitUpsertPure rows u w nid).2.length = rows.length ∧
      ∃ v ∈ rows, v.mobile_uid = Option.some u ∧
        (visitUpsertPure rows u w nid).2.filter
          (fun r => r.mobile_uid = Option.some u)
          = [applyVisitVals v { w with mobile_uid := Option.none }]) ∧
    (∀ (rows : List Partner) (u : PyVal) (w : PartnerVals) (nid : Nat),
      (rows.filterMap Partner.mobile_uid).Nodup →
      (rows.map Partner.id).Nodup →
      (∃ v ∈ rows, v.mobile_uid = Option.some u) →
      (partnerUpsertPure rows u w nid).2.length = rows.length ∧
      ∃ v ∈ rows, v.mobile_uid = Option.some u ∧
        (partnerUpsertPure rows u w nid).2.filter
          (fun r => r.mobile_uid = Option.some u)
          = [applyPartnerVals v { w with mobile_uid := Option.none }]) ∧
    (∀ (rows : List SaleOrder) (u : PyVal) (w : SaleVals) (nid : Nat),
      (rows.filterMap SaleOrder.mobile_uid).Nodup →
      (rows.map SaleOrder.id).Nodup →
      (∃ v ∈ rows, v.mobile_uid = Option.some u) →
      (saleUpsertPure rows u w nid).2.length = rows.length ∧
      ∃ v ∈ rows, v.mobile_uid = Option.some u ∧
        (saleUpsertPure rows u w nid).2.filter
          (fun r => r.mobile_uid = Option.some u)
          = [applySaleVals v { w with mobile_uid := Option.none }]) ∧
    (∀ (rows : List Payment) (u : PyVal) (w : PaymentVals) (nid : Nat),
      (rows.filterMap Payment.mobile_uid).Nodup →
      (rows.map Payment.id).Nodup →
      (∃ v ∈ rows, v.mobile_uid = Option.some u) →
      (paymentUpsertPure rows u w nid).2.length = rows.length ∧
      ∃ v ∈ rows, v.mobile_uid = Option.some u ∧
        (paymentUpsertPure rows u w nid).2.filter
          (fun r => r.mobile_uid = Option.some u)
          = [applyPaymentVals v { w with mobile_uid := Option.none }]) := by
  refine ⟨?_, ?_, ?_, ?_⟩
  · intro rows u w nid hu hi hex
    exact visitUpsert_exists_spec rows u w nid hu hi hex
  · intro rows u w nid hu hi hex
    exact partnerUpsert_exists_spec rows u w nid hu hi hex
  · intro rows u w nid hu hi hex
    exact saleUpsert_exists_spec rows u w nid hu hi hex
  · intro rows u w nid hu hi hex
    exact paymentUpsert_exists_spec rows u w nid hu hi hex

/-- Sample visit row for witnesses. -/
def wVisit : Visit :=
  ⟨1, Option.some (PyVal.str "u"), Option.some (PyVal.int 1), Option.none, Option.none⟩

/-- Sample partner row for witnesses. -/
def wPartner : Partner :=
  ⟨1, Option.some (PyVal.str "u"), Option.some (PyVal.str "A"), Option.none,
    Option.none, Option.none, Option.none, Option.none, Option.some true,
    Option.some 1, Option.none⟩

/-- Sample sale order row for witnesses. -/
def wSale : SaleOrder :=
  ⟨1, Option.some (PyVal.str "u"), Option.some (PyVal.int 1), Option.none⟩

/-- Sample payment row for witnesses. -/
def wPayment : Payment :=
  ⟨1, Option.some (PyVal.str "u"), Option.some (PyVal.int 1),
    Option.some (PyVal.int 5), Option.none, Option.none, Option.none,
    Option.none, Option.none⟩

/-- Witness for C2: resubmitting uid `"u"` to each one-record store keeps
the store at one record. -/
theorem claim_C2_upsert_idempotence_witness :
    (visitUpsertPure [wVisit] (PyVal.str "u")
        ⟨Option.some (PyVal.str "u"), Option.none, Option.none, Option.none⟩ 2).2.length = 1 ∧
    (partnerUpsertPure [wPartner] (PyVal.str "u")
        ⟨Option.none, Option.some (PyVal.str "u"), Option.none, Option.none,
          Option.none, Option.none, Option.none, Option.some true,
          Option.some 1, Option.none⟩ 2).2.length = 1 ∧
    (saleUpsertPure [wSale] (PyVal.str "u")
        ⟨Option.some (PyVal.str "u"), Option.none, Option.none⟩ 2).2.length = 1 ∧
    (paymentUpsertPure [wPayment] (PyVal.str "u")
        ⟨Option.some (PyVal.str "u"), Option.none, Option.none, Option.none,
          Option.none, Option.none, Option.none, Option.none⟩ 2).2.length = 1 := by
  refine ⟨?_, ?_, ?_, ?_⟩
  · exact (claim_C2_upsert_idempotence.1 [wVisit] (PyVal.str "u") _ 2
      (by decide) (by decide) ⟨wVisit, by decide, by decide⟩).1
  · exact (claim_C2_upsert_idempotence.2.1 [wPartner] (PyVal.str "u") _ 2
      (by decide) (by decide) ⟨wPartner, by decide, by decide⟩).1
  · exact (claim_C2_upsert_idempotence.2.2.1 [wSale] (PyVal.str "u") _ 2
      (by decide) (by decide) ⟨wSale, by decide, by decide⟩).1
  · exact (claim_C2_upsert_idempotence.2.2.2 [wPayment] (PyVal.str "u") _ 2
      (by decide) (by decide) ⟨wPayment, by decide, by decide⟩).1

/-! ## Claim C8 -/

/-- Fields of a successfully built partner `vals` dict: every branch of
the `date` handling leaves the remaining mapped fields untouched, and a
missing `date` leaves the sync date out of the write. -/
lemma dictToPartnerVals_fields (d : Rec) (w : PartnerVals)
    (h : dictToPartnerVals d = Except.ok w) :
    w.name = (if d.get "name" = PyVal.none then Option.none
              else Option.some (d.get "name")) ∧
    w.city = (if d.get "city" = PyVal.none then Option.none
              else Option.some (d.get "city")) ∧
    w.vat = (if d.get "tax_id" = PyVal.none then Option.none
             else Option.some (d.get "tax_id")) ∧
    w.email = (if d.get "email" = PyVal.none then Option.none
               else Option.some (d.get "email")) ∧
    w.phone = (if d.get "phone" = PyVal.none then Option.none
               else Option.some (d.get "phone")) ∧
    w.website = (if d.get "website" = PyVal.none then Option.none
                 else Option.some (d.get "website")) ∧
    (d.get "date" = PyVal.none → w.mobile_sync_date = Option.none) := by
  simp only [dictToPartnerVals] at h
  cases hd : d.get "date" with
  | none =>
      rw [hd] at h
      dsimp only at h
      injection h with h2
      subst h2
      exact ⟨rfl, rfl, rfl, rfl, rfl, rfl, fun _ => rfl⟩
  | str s =>
      rw [hd] at h
      dsimp only at h
      by_cases hs : s = ""
      · rw [hs] at h
        rw [if_pos rfl] at h
        injection h with h2
        subst h2
        exact ⟨rfl, rfl, rfl, rfl, rfl, rfl, fun hg => by cases hg⟩
      · rw [if_neg hs] at h
        cases hp : parseDateYmd s with
        | none =>
            rw [hp] at h
            dsimp only at h
            injection h with h2
            subst h2
            exact ⟨rfl, rfl, rfl, rfl, rfl, rfl, fun hg => by cases hg⟩
        | some dte =>
            rw [hp] at h
            dsimp only at h
            injection h with h2
            subst h2
            exact ⟨rfl, rfl, rfl, rfl, rfl, rfl, fun hg => by cases hg⟩
  | int n =>
      rw [hd] at h
      dsimp only at h
      by_cases hn : n = 0
      · rw [if_pos hn] at h
        injection h with h2
        subst h2
        exact ⟨rfl, rfl, rfl, rfl, rfl, rfl, fun hg => by cases hg⟩
      · rw [if_neg hn] at h
        cases h
  | bool b =>
      rw [hd] at h
      dsimp only at h
      cases b with
      | true => rw [if_pos rfl] at h; cases h
      | false =>
          rw [if_neg (by simp)] at h
          injection h with h2
          subst h2
          exact ⟨rfl, rfl, rfl, rfl, rfl, rfl, fun hg => by cases hg⟩

/-- Claim C8: an upsert that resolves to an existing record leaves the
stored `mobile_uid` unchanged (it is popped from the write), and every
sync field submitted as absent/`None` keeps its prior stored value —
shown for the visit engine (fields built by `__dict_to_visit_vals`) and
the customer engine (fields built by `_dict_to_partner_vals`). -/
theorem claim_C8_update_frame :
    (∀ (rows : List Visit) (u : PyVal) (d : Rec) (pdt : DT) (nid : Nat) (v : Visit),
      visitFindUid rows u = Option.some v →
      ((visitUpsertPure rows u (dictToVisitVals d (Option.some pdt)) nid).1.mobile_uid
          = v.mobile_uid) ∧
      (d.get "memo" = PyVal.none →
        (visitUpsertPure rows u (dictToVisitVals d (Option.some pdt)) nid).1.memo
          = v.memo) ∧
      (d.get "partner_id" = PyVal.none →
        (visitUpsertPure rows u (dictToVisitVals d (Option.some pdt)) nid).1.partner_id
          = v.partner_id)) ∧
    (∀ (rows : List Partner) (u : PyVal) (d : Rec) (w : PartnerVals) (nid : Nat)
        (p : Partner),
      partnerFindUid rows u = Option.some p →
      dictToPartnerVals d = Except.ok w →
      ((partnerUpsertPure rows u w nid).1.mobile_uid = p.mobile_uid) ∧
      (d.get "name" = PyVal.none →
        (partnerUpsertPure rows u w nid).1.name = p.name) ∧
      (d.get "city" = PyVal.none →
        (partnerUpsertPure rows u w nid).1.city = p.city) ∧
      (d.get "tax_id" = PyVal.none →
        (partnerUpsertPure rows u w nid).1.vat = p.vat) ∧
      (d.get "email" = PyVal.none →
        (partnerUpsertPure rows u w nid).1.email = p.email) ∧
      (d.get "phone" = PyVal.none →
        (partnerUpsertPure rows u w nid).1.phone = p.phone) ∧
      (d.get "website" = PyVal.none →
        (partnerUpsertPure rows u w nid).1.website = p.website) ∧
      (d.get "date" = PyVal.none →
        (partnerUpsertPure rows u w nid).1.mobile_sync_date = p.mobile_sync_date)) := by
  constructor
  · intro rows u d pdt nid v hfind
    have hf : rows.find? (fun r => r.mobile_uid = Option.some u) = Option.some v := hfind
    have hup : (visitUpsertPure rows u (dictToVisitVals d (Option.some pdt)) nid).1
        = applyVisitVals v
            { dictToVisitVals d (Option.some pdt) with mobile_uid := Option.none } := by
      simp [visitUpsertPure, visitFindUid, hf]
    refine ⟨?_, ?_, ?_⟩
    · rw [hup]; rfl
    · intro hmemo
      rw [hup]
      simp [applyVisitVals, dictToVisitVals, hmemo, pyTruthy]
    · intro hpid
      rw [hup]
      simp [applyVisitVals, dictToVisitVals, hpid]
  · intro rows u d w nid p hfind hok
    have hf : rows.find? (fun r => r.mobile_uid = Option.some u) = Option.some p := hfind
    have hup : (partnerUpsertPure rows u w nid).1
        = applyPartnerVals p { w with mobile_uid := Option.none } := by
      simp [partnerUpsertPure, partnerFindUid, hf]
    obtain ⟨hname, hcity, hvat, hemail, hphone, hweb, hdate⟩ :=
      dictToPartnerVals_fields d w hok
    refine ⟨?_, ?_, ?_, ?_, ?_, ?_, ?_, ?_⟩
    · rw [hup]; rfl
    · intro hg; rw [hup]; simp [applyPartnerVals, hname, hg]
    · intro hg; rw [hup]; simp [applyPartnerVals, hcity, hg]
    · intro hg; rw [hup]; simp [applyPartnerVals, hvat, hg]
    · intro hg; rw [hup]; simp [applyPartnerVals, hemail, hg]
    · intro hg; rw [hup]; simp [applyPartnerVals, hphone, hg]
    · intro hg; rw [hup]; simp [applyPartnerVals, hweb, hg]
    · intro hg; rw [hup]; simp [applyPartnerVals, hdate hg]

/-- Witness for C8: updating the sample visit and partner with a payload
that omits every optional field preserves uid and stored fields. -/
theorem claim_C8_update_frame_witness :
    ((visitUpsertPure [wVisit] (PyVal.str "u")
        (dictToVisitVals [("mobile_uid", PyVal.str "u"), ("partner_id", PyVal.int 1),
          ("visit_datetime", PyVal.str "2024-01-02T03:04:05")]
          (Option.some ⟨2024, 1, 2, 3, 4, 5⟩)) 2).1.mobile_uid
      = wVisit.mobile_uid) ∧
    ((partnerUpsertPure [wPartner] (PyVal.str "u")
        ⟨Option.some (PyVal.str "B"), Option.some (PyVal.str "u"), Option.none,
          Option.none, Option.none, Option.none, Option.none, Option.some true,
          Option.some 1, Option.none⟩ 2).1.city = wPartner.city) := by
  constructor
  · exact (claim_C8_update_frame.1 [wVisit] (PyVal.str "u")
      [("mobile_uid", PyVal.str "u"), ("partner_id", PyVal.int 1),
        ("visit_datetime", PyVal.str "2024-01-02T03:04:05")]
      ⟨2024, 1, 2, 3, 4, 5⟩ 2 wVisit (by decide)).1
  · exact ((claim_C8_update_frame.2 [wPartner] (PyVal.str "u")
      [("mobile_uid", PyVal.str "u"), ("name", PyVal.str "B")]
      ⟨Option.some (PyVal.str "B"), Option.some (PyVal.str "u"), Option.none,
        Option.none, Option.none, Option.none, Option.none, Option.some true,
        Option.some 1, Option.none⟩ 2 wPartner (by decide) (by rfl)).2.2.1 (by decide))

/-! ## Claim C9 -/

/-- Claim C9: events are dispatched to exactly the active subscriptions
with the matching flag (an event with no mapped flag dispatches to
none); the create/update hooks fire `customer.created`/`customer.updated`
exactly for mobile-synced records; a delivery failure is recorded as
`last_status`/`last_error` on the subscription, touches nothing else on
it, and — `trigger` being total and the write finished before
notification — never propagates to the caller or rolls back the write. -/
theorem claim_C9_notify_dispatch :
    (∀ (subs : List Webhook) (e : String), eventFlag e = Option.none →
      notifyTargets subs e = [] ∧
        ∀ d : Webhook → DeliveryOutcome, notifyRun subs e d = subs) ∧
    (∀ (subs : List Webhook) (e : String) (f : Webhook → Bool) (w : Webhook),
      eventFlag e = Option.some f →
      (w ∈ notifyTargets subs e ↔ w ∈ subs ∧ w.active = true ∧ f w = true)) ∧
    (∀ (w : Webhook) (err : String),
      triggerHook w (Except.error err)
        = { w with last_status := Option.some "failed",
                   last_error := Option.some err } ∧
      triggerHook w (Except.ok ())
        = { w with last_status := Option.some "success",
                   last_error := Option.none }) ∧
    (∀ (w : Webhook) (o : DeliveryOutcome),
      (triggerHook w o).id = w.id ∧ (triggerHook w o).url = w.url ∧
      (triggerHook w o).secret = w.secret ∧ (triggerHook w o).active = w.active ∧
      (triggerHook w o).on_customer_create = w.on_customer_create ∧
      (triggerHook w o).on_customer_update = w.on_customer_update ∧
      (triggerHook w o).on_payment_create = w.on_payment_create ∧
      (triggerHook w o).on_payment_update = w.on_payment_update) ∧
    (∀ p : Partner,
      partnerCreateEvents [p]
        = (if pyTruthy (optPy p.mobile_uid) then [("customer.created", p.id)] else []) ∧
      partnerWriteEvents [p]
        = (if pyTruthy (optPy p.mobile_uid) then [("customer.updated", p.id)] else [])) ∧
    (∀ (rows : List Partner) (w : PartnerVals) (nid : Nat) (subs : List Webhook)
        (deliver : Webhook → DeliveryOutcome),
      (partnerCreateWithHook rows w nid subs deliver).1
        = (rows ++ [newPartner nid w], newPartner nid w)) := by
  refine ⟨?_, ?_, ?_, ?_, ?_, ?_⟩
  · intro subs e he
    refine ⟨?_, ?_⟩
    · simp [notifyTargets, he]
    · intro d; simp [notifyRun, he]
  · intro subs e f w he
    simp [notifyTargets, he, List.mem_filter]
  · intro w err
    exact ⟨rfl, rfl⟩
  · intro w o
    cases o with
    | ok u => exact ⟨rfl, rfl, rfl, rfl, rfl, rfl, rfl, rfl⟩
    | error e => exact ⟨rfl, rfl, rfl, rfl, rfl, rfl, rfl, rfl⟩
  · intro p
    constructor
    · by_cases hp : pyTruthy (optPy p.mobile_uid)
      · simp [partnerCreateEvents, hp]
      · simp [partnerCreateEvents, hp]
    · by_cases hp : pyTruthy (optPy p.mobile_uid)
      · simp [partnerWriteEvents, hp]
      · simp [partnerWriteEvents, hp]
  · intro rows w nid subs deliver
    rfl

/-- Witness for C9: a concrete unknown event dispatches to nobody, and a
failed delivery is recorded on the sample subscription. -/
theorem claim_C9_notify_dispatch_witness :
    notifyTargets [⟨1, "http:a", Option.none, true, true, true, true, true, true,
        true, true, true, Option.none, Option.none⟩] "visit.created" = [] ∧
    (triggerHook ⟨1, "http:a", Option.none, true, true, true, true, true, true,
        true, true, true, Option.none, Option.none⟩ (Except.error "timeout")).last_error
      = Option.some "timeout" := by
  constructor
  · exact (claim_C9_notify_dispatch.1 _ "visit.created" (by rfl)).1
  · exact congrArg Webhook.last_error
      (claim_C9_notify_dispatch.2.2.1 ⟨1, "http:a", Option.none, true, true, true,
        true, true, true, true, true, true, Option.none, Option.none⟩ "timeout").1

/-! ## Claim C7 -/

/-- Counterexample to C7 as stated: `partner_id = 0` is a present
(non-null) candidate ID and no record with id 0 exists, yet
`validate_foreign_key` passes, because `if not record_id` treats the
falsy `0` like an absent value.  So "fails iff no record with that ID
exists" is false for present-but-falsy IDs. -/
theorem claim_C7_fk_zero_counterexample :
    validateForeignKey [1] "res.partner" (PyVal.int 0) "partner_id" = Option.none ∧
    PyVal.int 0 ≠ PyVal.none ∧
    (∀ i ∈ [1], Int.ofNat i ≠ (0 : ℤ)) := by
  decide

/-- Claim C7 amended: the validator passes whenever the candidate ID is
null/absent or otherwise falsy (`0`, `False`, `""`); for a truthy
integer ID it passes iff a record with that ID exists, and otherwise
fails with a 400 naming the field and the missing ID. -/
theorem claim_C7_fk_validator_amended :
    ∀ (ids : List Nat) (modelName fieldName : String),
      (∀ v : PyVal, pyTruthy v = false →
        validateForeignKey ids modelName v fieldName = Option.none) ∧
      (∀ n : ℤ, n ≠ 0 →
        (validateForeignKey ids modelName (PyVal.int n) fieldName = Option.none ↔
          ∃ i ∈ ids, Int.ofNat i = n)) ∧
      (∀ n : ℤ, n ≠ 0 → (∀ i ∈ ids, Int.ofNat i ≠ n) →
        validateForeignKey ids modelName (PyVal.int n) fieldName
          = Option.some (jsonError ("Invalid " ++ fieldName) 400
              (Option.some (Details.fkMissing fieldName (PyVal.int n) modelName)))) := by
  intro ids modelName fieldName
  refine ⟨?_, ?_, ?_⟩
  · intro v hv
    simp [validateForeignKey, hv]
  · intro n hn
    have ht : pyTruthy (PyVal.int n) = true := by simp [pyTruthy, hn]
    by_cases hex : ∃ i ∈ ids, Int.ofNat i = n
    · have hany : ids.any (fun i => Int.ofNat i = n) = true :=
        List.any_eq_true.mpr (by simpa using hex)
      simp [validateForeignKey, ht, hany, hex]
    · have hany : ids.any (fun i => Int.ofNat i = n) = false := by
        rw [List.any_eq_false]
        intro i hi hc
        exact hex ⟨i, hi, by simpa using hc⟩
      simp [validateForeignKey, ht, hany, hex]
  · intro n hn hall
    have ht : pyTruthy (PyVal.int n) = true := by simp [pyTruthy, hn]
    have hany : ids.any (fun i => Int.ofNat i = n) = false := by
      rw [List.any_eq_false]
      intro i hi hc
      exact hall i hi (by simpa using hc)
    simp [validateForeignKey, ht, hany]
    intro i hi
    simpa using hall i hi

/-- Witness for the amended C7: a truthy non-existent id 5 against a
store holding only id 1 fails with the 400 naming the field and id. -/
theorem claim_C7_fk_validator_amended_witness :
    validateForeignKey [1] "res.partner" (PyVal.int 5) "partner_id"
      = Option.some (jsonError "Invalid partner_id" 400
          (Option.some (Details.fkMissing "partner_id" (PyVal.int 5) "res.partner"))) :=
  (claim_C7_fk_validator_amended [1] "res.partner" "partner_id").2.2 5
    (by decide) (by decide)

/-! ## Claim C5 -/

/-- A client store holding one hundred timestamps at `t = 1/2`, probed
at `now = 60`: every stamp survives the purge (being 59.5 seconds old),
yet `int(60 - (60 - 1/2))` truncates to 0. -/
def rateStoreHalf : RateStore := [("k", List.replicate 100 ((1 : ℚ) / 2))]

/-- Counterexample to C5 as stated: the 101st request inside the window
is rejected, but the reported `retry_after` is `0`, not strictly greater
than `0` — `int()` truncates the fractional remainder of the window. -/
theorem claim_C5_retry_after_zero_counterexample :
    (checkRateLimit rateStoreHalf "k" 60).1.1 = false ∧
    (checkRateLimit rateStoreHalf "k" 60).1.2
      = Option.some (jsonError "Rate limit exceeded" 429
          (Option.some (Details.rate 100 60 0))) := by
  have hfilter : purgedStamps rateStoreHalf "k" 60 = List.replicate 100 ((1 : ℚ) / 2) := by
    unfold purgedStamps rateLimitWindow
    have hentry : RateStore.entry rateStoreHalf "k" = List.replicate 100 ((1 : ℚ) / 2) := rfl
    rw [hentry, List.filter_replicate]
    have : ((60 : ℚ) - 60 < (1 : ℚ) / 2) := by norm_num
    simp [this]
  have hcond : rateLimitRequests ≤ (purgedStamps rateStoreHalf "k" 60).length := by
    rw [hfilter]
    simp [rateLimitRequests]
  have hhead : (purgedStamps rateStoreHalf "k" 60).headD 0 = (1 : ℚ) / 2 := by
    rw [hfilter, List.replicate_succ]
    rfl
  have hretry : pyIntTrunc (rateLimitWindow - ((60 : ℚ) - (purgedStamps rateStoreHalf "k" 60).headD 0)) = 0 := by
    rw [hhead]
    unfold pyIntTrunc rateLimitWindow
    rw [if_pos (by norm_num)]
    norm_num
  constructor
  · simp only [checkRateLimit]
    rw [if_pos hcond]
  · simp only [checkRateLimit]
    rw [if_pos hcond]
    rw [hretry]
    rfl

/-- Claim C5 amended: each check keeps exactly the timestamps strictly
newer than `now - 60` and rejects iff 100 or more remain; the rejection
reports 429 with `retry_after = int(60 - (now - oldest remaining))`,
which is nonnegative but may be `0` (truncation); the head of the
purged, chronologically sorted list is the oldest remaining stamp;
otherwise `now` is appended and the request is allowed. -/
theorem claim_C5_rate_limit_amended :
    ∀ (st : RateStore) (k : String) (now : ℚ),
      (st.entry k).Sorted (· ≤ ·) →
      (((checkRateLimit st k now).1.1 = false) ↔
          100 ≤ (purgedStamps st k now).length) ∧
      (100 ≤ (purgedStamps st k now).length →
        (checkRateLimit st k now).1.2
            = Option.some (jsonError "Rate limit exceeded" 429 (Option.some
                (Details.rate 100 60 (pyIntTrunc
                  (60 - (now - (purgedStamps st k now).headD 0)))))) ∧
        0 ≤ pyIntTrunc (60 - (now - (purgedStamps st k now).headD 0)) ∧
        (∀ t ∈ purgedStamps st k now, (purgedStamps st k now).headD 0 ≤ t) ∧
        (checkRateLimit st k now).2 = st.setEntry k (purgedStamps st k now)) ∧
      ((purgedStamps st k now).length < 100 →
        (checkRateLimit st k now).1.1 = true ∧
        (checkRateLimit st k now).2
            = st.setEntry k (purgedStamps st k now ++ [now])) ∧
      (∀ t ∈ purgedStamps st k now, now - 60 < t) := by
  intro st k now hsorted
  have hmem : ∀ t ∈ purgedStamps st k now, now - 60 < t := by
    intro t ht
    have h2 := List.of_mem_filter ht
    simpa [rateLimitWindow] using h2
  by_cases hlen : 100 ≤ (purgedStamps st k now).length
  · have hcond : rateLimitRequests ≤ (purgedStamps st k now).length := hlen
    refine ⟨?_, ?_, ?_, hmem⟩
    · simp [checkRateLimit, hcond, hlen]
    · intro _
      refine ⟨?_, ?_, ?_, ?_⟩
      · simp only [checkRateLimit]
        rw [if_pos hcond]
        rfl
      · have hne : purgedStamps st k now ≠ [] := by
          intro hnil
          rw [hnil] at hlen
          simp at hlen
        have hhead : (purgedStamps st k now).headD 0 ∈ purgedStamps st k now := by
          cases hps : purgedStamps st k now with
          | nil => exact absurd hps hne
          | cons a t => simp [hps]
        have hq : (0 : ℚ) ≤ 60 - (now - (purgedStamps st k now).headD 0) := by
          have := hmem _ hhead
          linarith
        unfold pyIntTrunc
        rw [if_pos hq]
        exact Int.le_floor.mpr (by exact_mod_cast hq)
      · have hsf : (purgedStamps st k now).Sorted (· ≤ ·) := by
          unfold purgedStamps
          exact hsorted.filter _
        intro t ht
        cases hps : purgedStamps st k now with
        | nil => rw [hps] at ht; cases ht
        | cons a tl =>
            rw [hps] at ht
            rw [hps] at hsf
            simp only [List.headD_cons]
            rcases List.mem_cons.mp ht with h | h
            · exact le_of_eq h.symm
            · exact (List.sorted_cons.mp hsf).1 t h
      · simp [checkRateLimit, hcond]
    · intro hlt
      exact absurd hlen (Nat.not_le.mpr hlt)
  · have hcond : ¬ rateLimitRequests ≤ (purgedStamps st k now).length := hlen
    refine ⟨?_, ?_, ?_, hmem⟩
    · simp [checkRateLimit, hcond, hlen]
    · intro hc
      exact absurd hc hlen
    · intro _
      constructor
      · simp [checkRateLimit, hcond]
      · simp [checkRateLimit, hcond]

/-- Witness for the amended C5: two old stamps are fully purged at
`now = 70`, so the request is allowed and recorded. -/
theorem claim_C5_rate_limit_amended_witness :
    (checkRateLimit [("k", [(1 : ℚ), 2])] "k" 70).1.1 = true := by
  have hfilter : purgedStamps [("k", [(1 : ℚ), 2])] "k" 70 = [] := by
    unfold purgedStamps rateLimitWindow
    have hentry : RateStore.entry [("k", [(1 : ℚ), 2])] "k" = [(1 : ℚ), 2] := rfl
    rw [hentry]
    have h1 : ¬ ((70 : ℚ) - 60 < 1) := by norm_num
    have h2 : ¬ ((70 : ℚ) - 60 < 2) := by norm_num
    simp [List.filter_cons, h1, h2]
  exact ((claim_C5_rate_limit_amended [("k", [(1 : ℚ), 2])] "k" 70 (by decide)).2.2.1
    (by rw [hfilter]; norm_num)).1

/-! ## Invariant preservation through the visit write path -/

/-- A per-row predicate holding over every component of the cursor:
visible rows, snapshot, concurrent rows, and saved row sets. -/
def CrAll (P : Visit → Prop) (cr : Cr Visit) : Prop :=
  (∀ v ∈ cr.rows, P v) ∧ (∀ v ∈ cr.base, P v) ∧ (∀ v ∈ cr.ext, P v) ∧
  (∀ s ∈ cr.saves, ∀ v ∈ s, P v)

lemma CrAll_write (P : Visit → Prop) (cr : Cr Visit) (v v2 : Visit)
    (h : CrAll P cr) (hv2 : P v2) :
    CrAll P { cr with rows := visitWriteById cr.rows v v2 } := by
  obtain ⟨hr, hb, he, hs⟩ := h
  refine ⟨?_, hb, he, hs⟩
  intro x hx
  unfold visitWriteById at hx
  obtain ⟨y, hy, hxy⟩ := List.mem_map.mp hx
  by_cases hid : y.id = v.id
  · rw [if_pos hid] at hxy
    exact hxy ▸ hv2
  · rw [if_neg hid] at hxy
    exact hxy ▸ hr y hy

lemma CrAll_append (P : Visit → Prop) (cr : Cr Visit) (nv : Visit)
    (h : CrAll P cr) (hnv : P nv) :
    CrAll P { cr with rows := cr.rows ++ [nv] } := by
  obtain ⟨hr, hb, he, hs⟩ := h
  refine ⟨?_, hb, he, hs⟩
  intro x hx
  rcases List.mem_append.mp hx with hx1 | hx1
  · exact hr x hx1
  · rw [List.mem_singleton.mp hx1]
    exact hnv

lemma CrAll_rollbackAll (P : Visit → Prop) (cr : Cr Visit) (h : CrAll P cr) :
    CrAll P (Cr.rollbackAll cr) := by
  obtain ⟨hr, hb, he, hs⟩ := h
  have hbe : ∀ v ∈ cr.base ++ cr.ext, P v := by
    intro x hx
    rcases List.mem_append.mp hx with hx1 | hx1
    · exact hb x hx1
    · exact he x hx1
  refine ⟨hbe, hbe, ?_, ?_⟩
  · intro x hx
    simp [Cr.rollbackAll] at hx
  · intro s hsm
    simp [Cr.rollbackAll] at hsm

lemma CrAll_pushSave (P : Visit → Prop) (cr : Cr Visit) (h : CrAll P cr) :
    CrAll P (Cr.pushSave cr) := by
  obtain ⟨hr, hb, he, hs⟩ := h
  refine ⟨hr, hb, he, ?_⟩
  intro s hsm
  rcases List.mem_cons.mp hsm with hsm1 | hsm1
  · exact hsm1 ▸ hr
  · exact hs s hsm1

lemma CrAll_releaseSave (P : Visit → Prop) (cr : Cr Visit) (h : CrAll P cr) :
    CrAll P (Cr.releaseSave cr).1 := by
  obtain ⟨hr, hb, he, hs⟩ := h
  unfold Cr.releaseSave
  cases hsv : cr.saves with
  | nil => exact ⟨hr, hb, he, by rw [hsv] at hs; exact hs⟩
  | cons s rest =>
      refine ⟨hr, hb, he, ?_⟩
      intro s2 hs2
      exact hs s2 (by rw [hsv]; exact List.mem_cons_of_mem s hs2)

lemma CrAll_rollbackToSave (P : Visit → Prop) (cr : Cr Visit) (h : CrAll P cr) :
    CrAll P (Cr.rollbackToSave cr).1 := by
  obtain ⟨hr, hb, he, hs⟩ := h
  unfold Cr.rollbackToSave
  cases hsv : cr.saves with
  | nil => exact ⟨hr, hb, he, by rw [hsv] at hs; exact hs⟩
  | cons s rest =>
      refine ⟨?_, hb, he, ?_⟩
      · exact hs s (by rw [hsv]; exact List.mem_cons_self s rest)
      · intro s2 hs2
        exact hs s2 (by rw [hsv]; exact List.mem_cons_of_mem s hs2)

lemma CrAll_commit (P : Visit → Prop) (cr : Cr Visit) (h : CrAll P cr) :
    ∀ v ∈ Cr.commitRows cr, P v := by
  obtain ⟨hr, hb, he, _⟩ := h
  intro v hv
  unfold Cr.commitRows at hv
  by_cases ha : cr.aborted
  · rw [if_pos ha] at hv
    rcases List.mem_append.mp hv with h1 | h1
    · exact hb v h1
    · exact he v h1
  · rw [if_neg ha] at hv
    rcases List.mem_append.mp hv with h1 | h1
    · exact hr v h1
    · exact he v h1

/-- The cursor carried by a loop outcome. -/
def VLoop.cr : VLoop → Cr Visit
  | VLoop.done _ c => c
  | VLoop.ret _ c => c
  | VLoop.exc c => c

/-- The cursor carried by a step outcome. -/
def StepRes.cr : StepRes → Cr Visit
  | StepRes.cont c _ => c
  | StepRes.ret _ c => c
  | StepRes.exc c => c

/-- Every row predicate stable under the two kinds of write the loop
body performs — updating a found row with the uid-popped vals of a
validated record, and inserting a fresh row from such vals — holds of
every cursor component after one iteration. -/
lemma visitStep_preserves (P : Visit → Prop) (partners : List Partner)
    (Hupd : ∀ (v : Visit) (d : Rec) (pdt : DT),
      P v → codeUuidMatch (pyStr (Rec.get d "mobile_uid")) = true →
      P (applyVisitVals v
          { dictToVisitVals d (Option.some pdt) with mobile_uid := Option.none }))
    (Hnew : ∀ (n : Nat) (d : Rec) (pdt : DT),
      codeUuidMatch (pyStr (Rec.get d "mobile_uid")) = true →
      P (newVisit n (dictToVisitVals d (Option.some pdt))))
    (d : Rec) (idx : Nat) (cr : Cr Visit) (h : CrAll P cr) :
    CrAll P (visitStep partners d idx cr).cr := by
  simp only [visitStep]
  by_cases h1 : missingFields d ["mobile_uid", "partner_id", "visit_datetime"] ≠ []
  · rw [if_pos h1]
    exact h
  · rw [if_neg h1]
    cases h2 : codeUuidMatch (pyStr (Rec.get d "mobile_uid")) with
    | false =>
        simp only [h2, Bool.not_false, if_pos]
        exact h
    | true =>
        simp only [h2, Bool.not_true, Bool.false_eq_true, if_neg, if_false]
        cases hdt : parseDatetimePy (Rec.get d "visit_datetime") with
        | raise => exact h
        | fail => exact h
        | ok pdt =>
            cases hm : pyTruthy (Rec.get d "memo")
                && decide (5000 < (pyStr (Rec.get d "memo")).length) with
            | true =>
                simp only [hm, if_pos]
                exact h
            | false =>
                simp only [hm, Bool.false_eq_true, if_neg, if_false]
                cases hfk : validateForeignKey (partners.map (fun p => p.id))
                    "res.partner" (Rec.get d "partner_id") "partner_id" with
                | some e => exact h
                | none =>
                    cases hab : cr.aborted with
                    | true =>
                        simp only [hab, if_pos]
                        exact h
                    | false =>
                        simp only [hab, Bool.false_eq_true, if_neg, if_false]
                        cases hfind : visitFindUid cr.rows (Rec.get d "mobile_uid") with
                        | some v =>
                            have hv : v ∈ cr.rows :=
                              List.mem_of_find?_eq_some hfind
                            exact CrAll_write P cr v _ h (Hupd v d pdt (h.1 v hv) h2)
                        | none =>
                            cases hc : visitUidConflict cr
                                (dictToVisitVals d (Option.some pdt)) with
                            | false =>
                                simp only [hc, Bool.false_eq_true, if_neg, if_false]
                                exact CrAll_append P cr _ h
                                  (Hnew (visitNextId cr) d pdt h2)
                            | true =>
                                simp only [hc, if_pos]
                                cases hfind2 : visitFindUid (Cr.rollbackAll cr).rows
                                    (Rec.get d "mobile_uid") with
                                | some v =>
                                    have hv : v ∈ (Cr.rollbackAll cr).rows :=
                                      List.mem_of_find?_eq_some hfind2
                                    exact CrAll_write P (Cr.rollbackAll cr) v _
                                      (CrAll_rollbackAll P cr h)
                                      (Hupd v d pdt
                                        ((CrAll_rollbackAll P cr h).1 v hv) h2)
                                | none =>
                                    exact CrAll_rollbackAll P cr h

/-- The per-iteration preservation extends along the loop. -/
lemma processVisits_preserves (P : Visit → Prop) (partners : List Partner)
    (Hupd : ∀ (v : Visit) (d : Rec) (pdt : DT),
      P v → codeUuidMatch (pyStr (Rec.get d "mobile_uid")) = true →
      P (applyVisitVals v
          { dictToVisitVals d (Option.some pdt) with mobile_uid := Option.none }))
    (Hnew : ∀ (n : Nat) (d : Rec) (pdt : DT),
      codeUuidMatch (pyStr (Rec.get d "mobile_uid")) = true →
      P (newVisit n (dictToVisitVals d (Option.some pdt)))) :
    ∀ (l : List Rec) (idx : Nat) (cr : Cr Visit) (acc : List VisitOut),
      CrAll P cr → CrAll P (processVisits partners l idx cr acc).cr := by
  intro l
  induction l with
  | nil =>
      intro idx cr acc h
      exact h
  | cons d rest ih =>
      intro idx cr acc h
      have hstep := visitStep_preserves P partners Hupd Hnew d idx cr h
      simp only [processVisits]
      cases hs : visitStep partners d idx cr with
      | cont cr2 out =>
          rw [hs] at hstep
          exact ih (idx + 1) cr2 (acc ++ [out]) hstep
      | ret r cr2 =>
          rw [hs] at hstep
          exact hstep
      | exc cr2 =>
          rw [hs] at hstep
          exact hstep

/-- Rows durable after `create_visits` all satisfy a predicate stable
under the loop's writes, whenever they did at request start. -/
lemma createVisits_preserves (P : Visit → Prop) (partners : List Partner)
    (Hupd : ∀ (v : Visit) (d : Rec) (pdt : DT),
      P v → codeUuidMatch (pyStr (Rec.get d "mobile_uid")) = true →
      P (applyVisitVals v
          { dictToVisitVals d (Option.some pdt) with mobile_uid := Option.none }))
    (Hnew : ∀ (n : Nat) (d : Rec) (pdt : DT),
      codeUuidMatch (pyStr (Rec.get d "mobile_uid")) = true →
      P (newVisit n (dictToVisitVals d (Option.some pdt)))) :
    ∀ (body : Option (List Rec)) (cr : Cr Visit),
      CrAll P cr → ∀ v ∈ (createVisits partners body cr).2, P v := by
  intro body cr h
  unfold createVisits
  cases hsc : visitStructCheck body with
  | error r =>
      dsimp only
      exact CrAll_commit P cr h
  | ok payload =>
      dsimp only
      have hloop : CrAll P (processVisits partners payload 0 (Cr.pushSave cr) []).cr :=
        processVisits_preserves P partners Hupd Hnew payload 0 (Cr.pushSave cr) []
          (CrAll_pushSave P cr h)
      cases hpl : processVisits partners payload 0 (Cr.pushSave cr) [] with
      | done acc cr2 =>
          dsimp only
          have h2 : CrAll P cr2 := by rw [hpl] at hloop; exact hloop
          cases hrel : Cr.releaseSave cr2 with
          | mk cr3 ok =>
              have h3 : CrAll P cr3 := by
                have := CrAll_releaseSave P cr2 h2
                rw [hrel] at this
                exact this
              cases ok with
              | true =>
                  dsimp only
                  exact CrAll_commit P cr3 h3
              | false =>
                  dsimp only
                  exact CrAll_commit P cr3 h3
      | ret resp cr2 =>
          dsimp only
          have h2 : CrAll P cr2 := by rw [hpl] at hloop; exact hloop
          cases hrel : Cr.releaseSave cr2 with
          | mk cr3 ok =>
              have h3 : CrAll P cr3 := by
                have := CrAll_releaseSave P cr2 h2
                rw [hrel] at this
                exact this
              cases ok with
              | true =>
                  dsimp only
                  exact CrAll_commit P cr3 h3
              | false =>
                  dsimp only
                  exact CrAll_commit P cr3 h3
      | exc cr2 =>
          dsimp only
          have h2 : CrAll P cr2 := by rw [hpl] at hloop; exact hloop
          have h3 : CrAll P (Cr.rollbackToSave cr2).1 := CrAll_rollbackToSave P cr2 h2
          exact CrAll_commit P (Cr.rollbackToSave cr2).1 h3

/-- Splitting a batch: once a prefix completes, the loop continues on
the remainder from the prefix's cursor and accumulator. -/
lemma processVisits_append (partners : List Partner) :
    ∀ (l1 l2 : List Rec) (idx : Nat) (cr : Cr Visit) (acc acc2 : List VisitOut)
      (cr2 : Cr Visit),
      processVisits partners l1 idx cr acc = VLoop.done acc2 cr2 →
      processVisits partners (l1 ++ l2) idx cr acc =
        processVisits partners l2 (idx + l1.length) cr2 acc2 := by
  intro l1
  induction l1 with
  | nil =>
      intro l2 idx cr acc acc2 cr2 hdone
      simp only [processVisits] at hdone
      injection hdone with ha hc
      subst ha
      subst hc
      simp
  | cons d t ih =>
      intro l2 idx cr acc acc2 cr2 hdone
      simp only [processVisits, List.cons_append] at hdone ⊢
      cases hs : visitStep partners d idx cr with
      | cont cr3 out =>
          rw [hs] at hdone
          dsimp only at hdone
          have harith : idx + 1 + t.length = idx + (d :: t).length := by
            simp [List.length_cons]
            omega
          show processVisits partners (t ++ l2) (idx + 1) cr3 (acc ++ [out])
              = processVisits partners l2 (idx + (d :: t).length) cr2 acc2
          rw [ih l2 (idx + 1) cr3 (acc ++ [out]) acc2 cr2 hdone, harith]
      | ret r cr3 =>
          rw [hs] at hdone
          dsimp only at hdone
          cases hdone
      | exc cr3 =>
          rw [hs] at hdone
          dsimp only at hdone
          cases hdone

/-- A record whose `mobile_uid` fails the code's (Python-semantics) UUID
check makes the loop body return a 400 response without touching the
cursor: the uid check precedes every write and every raising operation. -/
lemma visitStep_ret400_of_bad_uid (partners : List Partner) (d : Rec) (idx : Nat)
    (cr : Cr Visit)
    (hbad : codeUuidMatch (pyStr (Rec.get d "mobile_uid")) = false) :
    ∃ r : Resp, visitStep partners d idx cr = StepRes.ret r cr ∧ r.status = 400 := by
  simp only [visitStep]
  by_cases h1 : missingFields d ["mobile_uid", "partner_id", "visit_datetime"] ≠ []
  · rw [if_pos h1]
    exact ⟨_, rfl, rfl⟩
  · rw [if_neg h1]
    simp only [hbad, Bool.not_false, if_pos]
    exact ⟨_, rfl, rfl⟩

/-- A record whose memo exceeds 5000 characters makes the loop body
return a 400 response without touching the cursor, provided its
`visit_datetime` value is not one that raises (a truthy non-string). -/
lemma visitStep_ret400_of_long_memo (partners : List Partner) (d : Rec) (idx : Nat)
    (cr : Cr Visit)
    (hmemo : pyTruthy (Rec.get d "memo") = true)
    (hlen : 5000 < (pyStr (Rec.get d "memo")).length)
    (hdt : parseDatetimePy (Rec.get d "visit_datetime") ≠ DtParse.raise) :
    ∃ r : Resp, visitStep partners d idx cr = StepRes.ret r cr ∧ r.status = 400 := by
  simp only [visitStep]
  by_cases h1 : missingFields d ["mobile_uid", "partner_id", "visit_datetime"] ≠ []
  · rw [if_pos h1]
    exact ⟨_, rfl, rfl⟩
  · rw [if_neg h1]
    cases h2 : codeUuidMatch (pyStr (Rec.get d "mobile_uid")) with
    | false =>
        simp only [h2, Bool.not_false, if_pos]
        exact ⟨_, rfl, rfl⟩
    | true =>
        simp only [h2, Bool.not_true, Bool.false_eq_true, if_neg, if_false]
        cases hp : parseDatetimePy (Rec.get d "visit_datetime") with
        | raise => exact absurd hp hdt
        | fail => exact ⟨_, rfl, rfl⟩
        | ok pdt =>
            have hc : (pyTruthy (Rec.get d "memo")
                && decide (5000 < (pyStr (Rec.get d "memo")).length)) = true := by
              rw [hmemo]
              simpa using hlen
            simp only [hc, if_pos]
            exact ⟨_, rfl, rfl⟩

/-- When a batch reaches a record with the savepoint intact (the prefix
completed without a race) and the loop body returns early on it, the
request's response is that early 400. -/
lemma createVisits_status_of_prefix_ret (partners : List Partner)
    (l1 : List Rec) (d : Rec) (rest : List Rec) (cr0 : Cr Visit)
    (acc2 : List VisitOut) (cr2 : Cr Visit) (r : Resp)
    (hsz : l1.length + (rest.length + 1) ≤ 100)
    (hpre : processVisits partners l1 0 (Cr.pushSave cr0) [] = VLoop.done acc2 cr2)
    (hsaves : cr2.saves ≠ [])
    (hstep : visitStep partners d (0 + l1.length) cr2 = StepRes.ret r cr2) :
    (createVisits partners (Option.some (l1 ++ d :: rest)) cr0).1 = r := by
  have hlen : (l1 ++ d :: rest).length = l1.length + (rest.length + 1) := by
    simp [List.length_append]
  have hsc : visitStructCheck (Option.some (l1 ++ d :: rest))
      = Except.ok (l1 ++ d :: rest) := by
    unfold visitStructCheck
    dsimp only
    rw [if_neg (by rw [hlen]; omega), if_neg (by rw [hlen]; omega)]
  have hloop : processVisits partners (l1 ++ d :: rest) 0 (Cr.pushSave cr0) []
      = VLoop.ret r cr2 := by
    rw [processVisits_append partners l1 (d :: rest) 0 (Cr.pushSave cr0) [] acc2 cr2 hpre]
    simp only [processVisits, hstep]
  unfold createVisits
  rw [hsc]
  dsimp only
  rw [hloop]
  dsimp only
  obtain ⟨s, srest, hsv⟩ : ∃ s srest, cr2.saves = s :: srest := by
    cases hcs : cr2.saves with
    | nil => exact absurd hcs hsaves
    | cons s srest => exact ⟨s, srest, rfl⟩
  unfold Cr.releaseSave
  rw [hsv]

/-! ## Concrete request fixtures -/

/-- A well-formed UUID-v4 string. -/
def uidA : String := "aaaaaaaa-aaaa-4aaa-8aaa-aaaaaaaaaaaa"

/-- A second well-formed UUID-v4 string. -/
def uidB : String := "bbbbbbbb-bbbb-4bbb-9bbb-bbbbbbbbbbbb"

/-- A partner row with id 1 for foreign-key checks. -/
def pAlice : Partner :=
  ⟨1, Option.none, Option.some (PyVal.str "Alice"), Option.none, Option.none,
    Option.none, Option.none, Option.none, Option.none, Option.none, Option.none⟩

/-- A fully valid visit payload record carrying `uidA`. -/
def rValid : Rec :=
  [("mobile_uid", PyVal.str uidA), ("partner_id", PyVal.int 1),
    ("visit_datetime", PyVal.str "2024-01-02T03:04:05")]

/-- A visit payload record missing `partner_id` and `visit_datetime`. -/
def rMissing : Rec := [("mobile_uid", PyVal.str uidB)]

/-- A 5001-character memo. -/
def longMemo : String := String.mk (List.replicate 5001 'x')

/-- A visit payload record whose memo exceeds the 5000-character cap. -/
def rLongMemo : Rec :=
  [("mobile_uid", PyVal.str uidA), ("partner_id", PyVal.int 1),
    ("visit_datetime", PyVal.str "2024-01-02T03:04:05"),
    ("memo", PyVal.str longMemo)]

/-! ## Claim C10 -/

/-- Truncation `str(memo)[:5000]` caps the length. -/
lemma pyTake_length_le (s : String) (n : Nat) : (pyTake s n).length ≤ n := by
  unfold pyTake
  show (s.data.take n).length ≤ n
  simp [List.length_take]

/-- The memo bound predicate on a stored visit row. -/
def memoBounded (v : Visit) : Prop :=
  ∀ m, v.memo = Option.some m → m.length ≤ 5000

/-- Claim C10: a stored visit memo never exceeds 5000 characters through
this API — the conversion truncates every written memo to 5000
characters; a store satisfying the bound still satisfies it after any
POST `/visits` request; and a record with an over-long memo, reached
with the savepoint intact and a non-raising datetime value, draws a 400. -/
theorem claim_C10_memo_bound :
    (∀ (d : Rec) (pdt : Option DT) (m : String),
      (dictToVisitVals d pdt).memo = Option.some m → m.length ≤ 5000) ∧
    (∀ (partners : List Partner) (body : Option (List Rec))
        (committed ext0 : List Visit),
      (∀ v ∈ committed, memoBounded v) →
      (∀ v ∈ ext0, memoBounded v) →
      ∀ v ∈ (createVisits partners body (Cr.start committed ext0)).2,
        memoBounded v) ∧
    (∀ (partners : List Partner) (l1 : List Rec) (d : Rec) (rest : List Rec)
        (cr0 : Cr Visit) (acc2 : List VisitOut) (cr2 : Cr Visit),
      l1.length + (rest.length + 1) ≤ 100 →
      processVisits partners l1 0 (Cr.pushSave cr0) [] = VLoop.done acc2 cr2 →
      cr2.saves ≠ [] →
      pyTruthy (Rec.get d "memo") = true →
      5000 < (pyStr (Rec.get d "memo")).length →
      parseDatetimePy (Rec.get d "visit_datetime") ≠ DtParse.raise →
      (createVisits partners (Option.some (l1 ++ d :: rest)) cr0).1.status = 400) := by
  have htrunc : ∀ (d : Rec) (pdt : Option DT) (m : String),
      (dictToVisitVals d pdt).memo = Option.some m → m.length ≤ 5000 := by
    intro d pdt m hm
    unfold dictToVisitVals at hm
    by_cases ht : pyTruthy (Rec.get d "memo") = true
    · simp only [ht, if_pos] at hm
      injection hm with hm2
      rw [← hm2]
      exact pyTake_length_le _ 5000
    · simp only [eq_false_of_ne_true ht, Bool.false_eq_true, if_neg, if_false] at hm
      cases hm
  refine ⟨htrunc, ?_, ?_⟩
  · intro partners body committed ext0 hcom hext
    apply createVisits_preserves memoBounded partners
    · intro v d pdt hPv _
      intro m hm
      simp only [applyVisitVals] at hm
      cases hw : (dictToVisitVals d (Option.some pdt)).memo with
      | none =>
          rw [hw] at hm
          exact hPv m hm
      | some t =>
          rw [hw] at hm
          injection hm with hm2
          rw [← hm2]
          exact htrunc d (Option.some pdt) t hw
    · intro n d pdt _
      intro m hm
      simp only [newVisit] at hm
      exact htrunc d (Option.some pdt) m hm
    · exact ⟨hcom, hcom, hext, by intro s hs; cases hs⟩
  · intro partners l1 d rest cr0 acc2 cr2 hsz hpre hsaves hmemo hlen hdt
    obtain ⟨r, hstep, hst⟩ :=
      visitStep_ret400_of_long_memo partners d (0 + l1.length) cr2 hmemo hlen hdt
    have hres := createVisits_status_of_prefix_ret partners l1 d rest cr0 acc2 cr2 r
      hsz hpre hsaves hstep
    rw [hres]
    exact hst

/-- Witness for C10: a single-record batch carrying a 5001-character
memo is rejected with a 400 by POST `/visits`. -/
theorem claim_C10_memo_bound_witness :
    (createVisits [pAlice] (Option.some [rLongMemo]) (Cr.start [] [])).1.status = 400 := by
  have hget : Rec.get rLongMemo "memo" = PyVal.str longMemo := by rfl
  have hlen : 5000 < (pyStr (Rec.get rLongMemo "memo")).length := by
    rw [hget]
    show 5000 < (List.replicate 5001 'x').length
    rw [List.length_replicate]
    omega
  have htr : pyTruthy (Rec.get rLongMemo "memo") = true := by
    rw [hget]
    show decide (String.mk (List.replicate 5001 'x') ≠ "") = true
    rw [decide_eq_true_eq]
    intro hc
    have : (List.replicate 5001 'x').length = ("" : String).length :=
      congrArg String.length hc
    rw [List.length_replicate] at this
    cases this
  have h := claim_C10_memo_bound.2.2 [pAlice] [] rLongMemo [] (Cr.start [] []) []
    (Cr.pushSave (Cr.start [] [])) (by decide) rfl (by decide) htr hlen (by decide)
  simpa using h

/-! ## Claim C6 -/

/-- A valid UUID-v4 followed by one newline. -/
def uidNL : String := uidA ++ "\n"

/-- A visit payload record whose `mobile_uid` is `uidA` plus a trailing
newline. -/
def rNL : Rec :=
  [("mobile_uid", PyVal.str uidNL), ("partner_id", PyVal.int 1),
    ("visit_datetime", PyVal.str "2024-01-02T03:04:05")]

/-- Counterexample to C6 as stated: `uidA ++ "\n"` does not match the
anchored UUID-v4 pattern, yet POST `/visits` accepts the record with a
200 and persists it — Python's `$` in `re.match` also matches just
before a single trailing newline, so the code's check is laxer than the
pattern the claim quotes. -/
theorem claim_C6_trailing_newline_counterexample :
    specUuidV4Match uidNL = false ∧
    (createVisits [pAlice] (Option.some [rNL]) (Cr.start [] [])).1.status = 200 ∧
    (∃ v ∈ (createVisits [pAlice] (Option.some [rNL]) (Cr.start [] [])).2,
      v.mobile_uid = Option.some (PyVal.str uidNL)) := by
  refine ⟨by decide, by decide, ?_⟩
  decide

/-- Claim C6 amended: the code accepts exactly `codeUuidMatch` — the
anchored pattern optionally followed by one trailing newline.  A uid the
code rejects is never newly persisted by any POST `/visits` request, and
a record carrying such a uid draws a 400 whenever the loop reaches it
with the savepoint intact. -/
theorem claim_C6_uuid_check_amended :
    (∀ (partners : List Partner) (body : Option (List Rec))
        (committed ext0 : List Visit) (v : Visit) (u : PyVal),
      v ∈ (createVisits partners body (Cr.start committed ext0)).2 →
      v.mobile_uid = Option.some u →
      codeUuidMatch (pyStr u) = false →
      ∃ v0, (v0 ∈ committed ∨ v0 ∈ ext0) ∧ v0.mobile_uid = Option.some u) ∧
    (∀ (partners : List Partner) (l1 : List Rec) (d : Rec) (rest : List Rec)
        (cr0 : Cr Visit) (acc2 : List VisitOut) (cr2 : Cr Visit),
      l1.length + (rest.length + 1) ≤ 100 →
      processVisits partners l1 0 (Cr.pushSave cr0) [] = VLoop.done acc2 cr2 →
      cr2.saves ≠ [] →
      codeUuidMatch (pyStr (Rec.get d "mobile_uid")) = false →
      (createVisits partners (Option.some (l1 ++ d :: rest)) cr0).1.status = 400) := by
  constructor
  · intro partners body committed ext0 v u hv hu hbad
    have hP : ∀ x ∈ (createVisits partners body (Cr.start committed ext0)).2,
        (∀ u2, x.mobile_uid = Option.some u2 →
          (∃ v0, (v0 ∈ committed ∨ v0 ∈ ext0) ∧ v0.mobile_uid = Option.some u2) ∨
            codeUuidMatch (pyStr u2) = true) := by
      apply createVisits_preserves
        (fun x => ∀ u2, x.mobile_uid = Option.some u2 →
          (∃ v0, (v0 ∈ committed ∨ v0 ∈ ext0) ∧ v0.mobile_uid = Option.some u2) ∨
            codeUuidMatch (pyStr u2) = true) partners
      · intro x d pdt hPx hmatch
        intro u2 hu2
        simp only [applyVisitVals] at hu2
        exact hPx u2 hu2
      · intro n d pdt hmatch
        intro u2 hu2
        simp only [newVisit, dictToVisitVals] at hu2
        by_cases hg : Rec.get d "mobile_uid" = PyVal.none
        · rw [if_pos hg] at hu2
          cases hu2
        · rw [if_neg hg] at hu2
          injection hu2 with hu3
          right
          rw [← hu3]
          exact hmatch
      · refine ⟨?_, ?_, ?_, ?_⟩
        · intro x hx u2 hu2
          exact Or.inl ⟨x, Or.inl hx, hu2⟩
        · intro x hx u2 hu2
          exact Or.inl ⟨x, Or.inl hx, hu2⟩
        · intro x hx u2 hu2
          exact Or.inl ⟨x, Or.inr hx, hu2⟩
        · intro s hs
          cases hs
    rcases hP v hv u hu with h1 | h1
    · exact h1
    · rw [hbad] at h1
      cases h1
  · intro partners l1 d rest cr0 acc2 cr2 hsz hpre hsaves hbad
    obtain ⟨r, hstep, hst⟩ :=
      visitStep_ret400_of_bad_uid partners d (0 + l1.length) cr2 hbad
    have hres := createVisits_status_of_prefix_ret partners l1 d rest cr0 acc2 cr2 r
      hsz hpre hsaves hstep
    rw [hres]
    exact hst

/-- Witness for the amended C6: a lone record whose `mobile_uid` is the
word `garbage` draws a 400 from POST `/visits`. -/
theorem claim_C6_uuid_check_amended_witness :
    (createVisits [pAlice]
      (Option.some [[("mobile_uid", PyVal.str "garbage"),
        ("partner_id", PyVal.int 1),
        ("visit_datetime", PyVal.str "2024-01-02T03:04:05")]])
      (Cr.start [] [])).1.status = 400 := by
  have h := claim_C6_uuid_check_amended.2 [pAlice] []
    [("mobile_uid", PyVal.str "garbage"), ("partner_id", PyVal.int 1),
      ("visit_datetime", PyVal.str "2024-01-02T03:04:05")] []
    (Cr.start [] []) [] (Cr.pushSave (Cr.start [] []))
    (by decide) rfl (by decide) (by decide)
  simpa using h

/-! ## Claim C1 -/

/-- A valid customer payload record. -/
def custA : Rec := [("mobile_uid", PyVal.str "u1"), ("name", PyVal.str "A")]

/-- A customer payload record missing the required `name`. -/
def custBad : Rec := [("mobile_uid", PyVal.str "u2")]

/-- Another valid customer payload record. -/
def custC : Rec := [("mobile_uid", PyVal.str "u3"), ("name", PyVal.str "C")]

/-- Claim C1 is violated by the code: on POST `/visits`, a batch whose
second record fails validation still persists the first record — the
`return` from inside `with cr.savepoint():` releases the savepoint
rather than rolling it back, and dispatch then commits — while the
client sees a 400; and POST `/customer` returns a partial-success 200
that persists and reports the valid records around an invalid one. -/
theorem claim_C1_no_batch_rollback_evidence :
    (createVisits [pAlice] (Option.some [rValid, rMissing]) (Cr.start [] [])).1.status
      = 400 ∧
    (∃ v ∈ (createVisits [pAlice] (Option.some [rValid, rMissing])
        (Cr.start [] [])).2,
      v.mobile_uid = Option.some (PyVal.str uidA)) ∧
    (createCustomers (Option.some [custA, custBad, custC])
        (Cr.start [] [])).1.status = 200 ∧
    (createCustomers (Option.some [custA, custBad, custC])
        (Cr.start [] [])).2.length = 2 ∧
    (∃ p ∈ (createCustomers (Option.some [custA, custBad, custC])
        (Cr.start [] [])).2,
      p.mobile_uid = Option.some (PyVal.str "u1")) ∧
    (∃ p ∈ (createCustomers (Option.some [custA, custBad, custC])
        (Cr.start [] [])).2,
      p.mobile_uid = Option.some (PyVal.str "u3")) := by
  refine ⟨by decide, by decide, by decide, by decide, by decide, by decide⟩

/-! ## Claim C3 -/

/-- The row a concurrent transaction committed with `uidB` while this
request was running: invisible to the request's snapshot, conflicting
with its insert. -/
def vExt : Visit :=
  ⟨7, Option.some (PyVal.str uidB), Option.some (PyVal.int 1),
    Option.some ⟨2024, 1, 1, 0, 0, 0⟩, Option.none⟩

/-- A visit payload record carrying the concurrently taken `uidB`. -/
def rB : Rec :=
  [("mobile_uid", PyVal.str uidB), ("partner_id", PyVal.int 1),
    ("visit_datetime", PyVal.str "2024-03-04T05:06:07")]

/-- Whether a loop outcome is normal completion. -/
def VLoop.isDone : VLoop → Bool
  | VLoop.done _ _ => true
  | _ => false

/-- Claim C3 is violated by the code: on the race path the handler calls
the full `request.env.cr.rollback()`, which discards the batch's earlier
write of `uidA` and destroys the savepoint.  The loop itself completes —
the re-query finds the concurrent row and retries as an update — but
releasing the now-destroyed savepoint fails the transaction, the caller
receives a 500, and committing the failed transaction keeps only the
concurrent row, unmodified: nothing of the recovery survives. -/
theorem claim_C3_race_recovery_evidence :
    ((processVisits [pAlice] [rValid, rB] 0
        (Cr.pushSave (Cr.start [] [vExt])) []).isDone = true) ∧
    ((processVisits [pAlice] [rValid, rB] 0
        (Cr.pushSave (Cr.start [] [vExt])) []).cr.saves = []) ∧
    (createVisits [pAlice] (Option.some [rValid, rB])
        (Cr.start [] [vExt])).1.status = 500 ∧
    (createVisits [pAlice] (Option.some [rValid, rB])
        (Cr.start [] [vExt])).2 = [vExt] := by
  refine ⟨by decide, by decide, by decide, by decide⟩

/-! ## Claim C4 -/

/-- One hundred and one distinct valid customer records. -/
def batch101 : List Rec :=
  (List.range 101).map (fun i =>
    [("mobile_uid", PyVal.int (Int.ofNat i + 1)), ("name", PyVal.str "N")])

/-- Claim C4 holds for POST `/visits` (and the textually identical
checks of `/sales` and `/payments`) but is violated by POST `/customer`,
which has no batch-size cap and no empty-body rejection: an empty array
and a 101-record array both return 200, the latter creating all 101
records — contradicting the module's own `test_post_customer_batch_limit`. -/
theorem claim_C4_batch_struct_evidence :
    (createVisits [pAlice] (Option.some []) (Cr.start [] [])).1.status = 400 ∧
    (createVisits [pAlice] Option.none (Cr.start [] [])).1.status = 400 ∧
    (createVisits [pAlice] (Option.some (List.replicate 101 rValid))
        (Cr.start [] [])).1.status = 400 ∧
    (∀ l : List Rec,
      visitStructCheck (Option.some l) = Except.ok l ↔
        0 < l.length ∧ l.length ≤ 100) ∧
    (createCustomers (Option.some []) (Cr.start [] [])).1.status = 200 ∧
    (createCustomers (Option.some batch101) (Cr.start [] [])).1.status = 200 ∧
    (createCustomers (Option.some batch101) (Cr.start [] [])).2.length = 101 := by
  refine ⟨by decide, by decide, by decide, ?_, by decide, by decide, by decide⟩
  intro l
  unfold visitStructCheck
  dsimp only
  by_cases h1 : l.length = 0
  · rw [if_pos h1]
    constructor
    · intro hc
      cases hc
    · intro hc
      omega
  · rw [if_neg h1]
    by_cases h2 : 100 < l.length
    · rw [if_pos h2]
      constructor
      · intro hc
        cases hc
      · intro hc
        omega
    · rw [if_neg h2]
      constructor
      · intro _
        omega
      · intro _
        rfl

end AndroidApi
